import Mathlib

/-!
Verification of the oura-daily-email repository (src/email_service.py,
src/oura_client.py, src/main.py) against its natural-language specification.

The Python code is shallowly embedded: JSON-like Python values become the
inductive type `JVal`; Python dicts become association lists; operations that
can raise in Python (`d[0]` on a non-list, `x // y` on a non-int, `.get` on a
non-dict, ...) return `Except String _`, where the error string names the
Python exception the source would raise.  Machine-independent data (scores,
durations, counts) are integers; numbers are modelled as `Int`
(the only fractional field, `temperature_deviation`, is not load-bearing for
any claim and is embedded at integer precision).
-/

namespace Oura

/-- A JSON-like Python value, as passed around by the repository:
`None`, `int`, `str`, `list`, `dict`. -/
inductive JVal where
  | null : JVal
  | int : Int → JVal
  | str : String → JVal
  | arr : List JVal → JVal
  | obj : List (String × JVal) → JVal
deriving Repr, Inhabited

/-- First-match lookup in an association list (Python dicts keep keys unique,
so first-match agrees with dict lookup). -/
def dictLookup : List (String × JVal) → String → Option JVal
  | [], _ => none
  | (k, v) :: rest, key => if k = key then some v else dictLookup rest key

/-- Embeds `d[k] = v` on a Python dict: replace the binding if the key exists,
append otherwise. -/
def dictSet : List (String × JVal) → String → JVal → List (String × JVal)
  | [], k, v => [(k, v)]
  | (k₂, v₂) :: rest, k, v =>
      if k₂ = k then (k, v) :: rest else (k₂, v₂) :: dictSet rest k v

/-- Python truthiness on the embedded values. -/
def pyTruthy : JVal → Bool
  | .null => false
  | .int i => i ≠ 0
  | .str s => s ≠ ""
  | .arr xs => ¬ xs.isEmpty
  | .obj fs => ¬ fs.isEmpty

mutual

/-- Embeds `repr` of a Python value (string escaping inside reprs is not modelled;
no claim depends on the repr of a container). -/
def pyRepr : JVal → String
  | .null => "None"
  | .int i => toString i
  | .str s => "\x27" ++ s ++ "\x27"
  | .arr xs => "[" ++ pyReprArr xs ++ "]"
  | .obj fs => "\x7b" ++ pyReprObj fs ++ "\x7d"

def pyReprArr : List JVal → String
  | [] => ""
  | [x] => pyRepr x
  | x :: y :: rest => pyRepr x ++ ", " ++ pyReprArr (y :: rest)

def pyReprObj : List (String × JVal) → String
  | [] => ""
  | [(k, v)] => "\x27" ++ k ++ "\x27: " ++ pyRepr v
  | (k, v) :: y :: rest => "\x27" ++ k ++ "\x27: " ++ pyRepr v ++ ", " ++ pyReprObj (y :: rest)

end

/-- Embeds `str()` of a Python value, as used by f-string interpolation. -/
def pyStr : JVal → String
  | .str s => s
  | v => pyRepr v

/-- Embeds `d.get(k, default)` where the receiver is known to be a dict.  Python
returns the stored value even when it is `None`; the default only applies
when the key is missing. -/
def dget (fs : List (String × JVal)) (k : String) (dflt : JVal) : JVal :=
  (dictLookup fs k).getD dflt

/-- Embeds `v.get(k)` on an arbitrary value: AttributeError unless `v` is a dict. -/
def pyGetE (v : JVal) (k : String) : Except String JVal :=
  match v with
  | .obj fs => .ok (dget fs k .null)
  | _ => .error "AttributeError: get"

/-- Embeds `v.get(k, dflt)` on an arbitrary value. -/
def pyGetD (v : JVal) (k : String) (dflt : JVal) : Except String JVal :=
  match v with
  | .obj fs => .ok (dget fs k dflt)
  | _ => .error "AttributeError: get"

/-- Embeds `format_duration` (email_service.py lines 13-21).  `None` renders
"N/A"; an int renders `"{hours}h {minutes}m"` / `"{minutes}m"` with Python
floor division and modulo; any other value makes Python's `//` raise. -/
def format_duration : JVal → Except String String
  | .null => .ok "N/A"
  | .int seconds =>
      let hours : Int := Int.fdiv seconds 3600
      let minutes : Int := Int.fdiv (Int.fmod seconds 3600) 60
      .ok (if hours > 0 then
              toString hours ++ "h " ++ toString minutes ++ "m"
            else
              toString minutes ++ "m")
  | _ => .error "TypeError: unsupported operand type for //"

def isLeapYear (y : Nat) : Bool :=
  (y % 4 = 0 && y % 100 ≠ 0) || y % 400 = 0

def daysInMonth (y m : Nat) : Nat :=
  if m = 2 then (if isLeapYear y then 29 else 28)
  else if m = 4 ∨ m = 6 ∨ m = 9 ∨ m = 11 then 30
  else 31

def isDigitChar (c : Char) : Bool := c.isDigit

/-- Read `n` decimal digits from the front of a character list. -/
def readDigits : Nat → List Char → Option (Nat × List Char)
  | 0, cs => some (0, cs)
  | n + 1, c :: cs =>
      if c.isDigit then
        match readDigits n cs with
        | some (v, rest) => some ((c.toNat - 48) * 10 ^ n + v, rest)
        | none => none
      else none
  | _ + 1, [] => none

/-- Parse the `±HH:MM[:SS[.ffffff]]` UTC-offset suffix accepted by
`datetime.fromisoformat`.  Returns `true` when the suffix is well formed. -/
def parseOffset : List Char → Bool
  | [] => true
  | sign :: cs =>
      if sign = '+' ∨ sign = '-' then
        match readDigits 2 cs with
        | some (oh, ':' :: cs₂) =>
            match readDigits 2 cs₂ with
            | some (om, rest) =>
                if oh < 24 && om < 60 then
                  match rest with
                  | [] => true
                  | ':' :: cs₃ =>
                      match readDigits 2 cs₃ with
                      | some (os, rest₂) =>
                          os < 60 &&
                          (match rest₂ with
                           | [] => true
                           | '.' :: frac =>
                               (frac.length == 3 || frac.length == 6) && frac.all isDigitChar
                           | _ => false)
                      | none => false
                  | _ => false
                else false
            | none => false
        | _ => false
      else false

/-- Seconds-and-fraction tail `SS[.fff[fff]]` plus optional offset; yields
`true` when well formed. -/
def parseSecTail : List Char → Bool
  | cs =>
      match readDigits 2 cs with
      | some (sec, rest) =>
          if sec ≥ 60 then false
          else
            match rest with
            | '.' :: frac =>
                let digs := frac.takeWhile isDigitChar
                let rest₂ := frac.drop digs.length
                (digs.length == 3 || digs.length == 6) && parseOffset rest₂
            | _ => parseOffset rest
      | none => false

/-- Time part `HH[:MM[:SS[.fff[fff]]]]` plus optional offset, as accepted by
pre-3.11 `datetime.fromisoformat`; yields the hour and minute fields. -/
def parseTimeHM (cs : List Char) : Option (Nat × Nat) :=
  match readDigits 2 cs with
  | some (h, rest) =>
      if h ≥ 24 then none
      else
        match rest with
        | ':' :: cs₂ =>
            (match readDigits 2 cs₂ with
             | some (mi, rest₂) =>
                if mi ≥ 60 then none
                else
                  (match rest₂ with
                   | ':' :: cs₃ => if parseSecTail cs₃ then some (h, mi) else none
                   | _ => if parseOffset rest₂ then some (h, mi) else none)
             | none => none)
        | _ => if parseOffset rest then some (h, 0) else none
  | none => none

/-- Parse the fragment of `datetime.fromisoformat` input exercised by this
repository: `YYYY-MM-DD`, optionally followed by any one separator character
and a time with optional UTC offset.  Returns the hour and minute fields,
which is all `strftime("%-I:%M %p")` consumes (a bare date parses with the
time at midnight). -/
def parseIsoHM (s : String) : Option (Nat × Nat) :=
  match readDigits 4 s.data with
  | some (y, '-' :: cs₁) =>
      (match readDigits 2 cs₁ with
       | some (mo, '-' :: cs₂) =>
          (match readDigits 2 cs₂ with
           | some (d, rest) =>
              if 1 ≤ mo ∧ mo ≤ 12 ∧ 1 ≤ d ∧ d ≤ daysInMonth y mo then
                (match rest with
                 | [] => some (0, 0)
                 | _sep :: cs₃ => parseTimeHM cs₃)
              else none
           | _ => none)
       | _ => none)
  | _ => none

/-- Embeds `strftime("%-I:%M %p")`: 12-hour clock with unpadded hour, zero-padded
minute, AM/PM. -/
def fmt12 (h mi : Nat) : String :=
  let h12 := if h % 12 = 0 then 12 else h % 12
  let mm := if mi < 10 then "0" ++ toString mi else toString mi
  toString h12 ++ ":" ++ mm ++ " " ++ (if h < 12 then "AM" else "PM")

/-- Embeds `format_time` (email_service.py lines 24-32).  Falsy input renders
"N/A".  Otherwise everything (the `Z` replacement, `fromisoformat`, the
`strftime`) happens inside a bare `try/except` that returns the original
value on any failure, so the function is total: a non-string or an
unparseable string passes through. -/
def format_time (v : JVal) : String :=
  if ¬ pyTruthy v then "N/A"
  else
    match v with
    | .str s =>
        match parseIsoHM (s.replace "Z" "+00:00") with
        | some (h, mi) => fmt12 h mi
        | none => s
    | v => pyStr v

def monthAbbr (m : Nat) : String :=
  match m with
  | 1 => "Jan" | 2 => "Feb" | 3 => "Mar" | 4 => "Apr" | 5 => "May" | 6 => "Jun"
  | 7 => "Jul" | 8 => "Aug" | 9 => "Sep" | 10 => "Oct" | 11 => "Nov" | _ => "Dec"

/-- Parse `strptime(s, "%Y-%m-%d")`: four-digit year, one-or-two-digit month
and day, full-string match, with the day validated against the month. -/
def parseYMD (s : String) : Option (Nat × Nat × Nat) :=
  match readDigits 4 s.data with
  | some (y, '-' :: cs₁) =>
      (match readDigits 2 cs₁ <|> readDigits 1 cs₁ with
       | some (mo, '-' :: cs₂) =>
          (match readDigits 2 cs₂ <|> readDigits 1 cs₂ with
           | some (d, []) =>
              if 1 ≤ mo ∧ mo ≤ 12 ∧ 1 ≤ d ∧ d ≤ daysInMonth y mo then
                some (y, mo, d)
              else none
           | _ => none)
       | _ => none)
  | _ => none

/-- Embeds `format_date_short` (email_service.py lines 35-43).  Falsy input renders
"N/A"; a parseable `YYYY-MM-DD` string renders `strftime("%b %-d")`; the
bare `try/except` passes anything else through unchanged. -/
def format_date_short (v : JVal) : String :=
  if ¬ pyTruthy v then "N/A"
  else
    match v with
    | .str s =>
        match parseYMD s with
        | some (_, mo, d) => monthAbbr mo ++ " " ++ toString d
        | none => s
    | v => pyStr v

/-- Embeds `v[0]`: first element of a list, first character of a string; anything
else raises. -/
def pyIndex0 : JVal → Except String JVal
  | .arr (x :: _) => .ok x
  | .arr [] => .error "IndexError: list index out of range"
  | .str s =>
      match s.data with
      | c :: _ => .ok (.str (String.mk [c]))
      | [] => .error "IndexError: string index out of range"
  | .obj _ => .error "KeyError: 0"
  | _ => .error "TypeError: not subscriptable"

/-- Embeds `for x in v`: lists iterate their elements, strings their characters,
anything else raises TypeError. -/
def pyIterList : JVal → Except String (List JVal)
  | .arr xs => .ok xs
  | .str s => .ok (s.data.map fun c => .str (String.mk [c]))
  | _ => .error "TypeError: not iterable"

/-- Embeds `daily_X.get("data", [{}])[0] if daily_X.get("data") else {}`
(email_service.py lines 70, 85, 88, 91). -/
def firstData (slot : JVal) : Except String JVal := do
  let d ← pyGetE slot "data"
  if pyTruthy d then do
    let d₂ ← pyGetD slot "data" (.arr [.obj []])
    pyIndex0 d₂
  else
    pure (.obj [])

/-- Embeds `period.get("type") == "long_sleep"` compares the fetched value with a
string; only an equal string compares equal in Python. -/
def isLongSleepTag : JVal → Bool
  | .str s => s = "long_sleep"
  | _ => false

/-- A record carrying the primary-overnight-sleep type tag. -/
def isLongSleepPeriod : JVal → Bool
  | .obj fs =>
      match dictLookup fs "type" with
      | some v => isLongSleepTag v
      | none => false
  | _ => false

/-- The `for period in sleep_periods["data"]` loop of lines 76-79: first
record whose type tag is "long_sleep", raising if a record is not a dict. -/
def findLongSleep : List JVal → Except String (Option JVal)
  | [] => .ok none
  | p :: ps => do
      let t ← pyGetE p "type"
      if isLongSleepTag t then pure (some p) else findLongSleep ps

/-- Sleep-period disambiguation (email_service.py lines 74-82): prefer the
first "long_sleep"-tagged record, fall back to the first record, and use an
empty record when the list is empty or absent. -/
def selectSleepPeriod (sleep_periods : JVal) : Except String JVal := do
  let d ← pyGetE sleep_periods "data"
  if pyTruthy d then do
    let elems ← pyIterList d
    let found ← findLongSleep elems
    let period_data := found.getD (.obj [])
    -- `if not period_data and sleep_periods["data"]:` — the data value is
    -- already known truthy on this branch
    if ¬ pyTruthy period_data then
      pure (elems.headD (.obj []))
    else
      pure period_data
  else
    pure (.obj [])

/-- Embeds `a // n` for an embedded value and an integer literal. -/
def pyFloorDiv (a : JVal) (n : Int) : Except String JVal :=
  match a with
  | .int i => .ok (.int (Int.fdiv i n))
  | _ => .error "TypeError: unsupported operand type for //"

/-- Embeds `workouts.get("data", []) if workouts else []` (email_service.py line 94). -/
def workoutListE (workouts : JVal) : Except String JVal :=
  if pyTruthy workouts then pyGetD workouts "data" (.arr []) else pure (JVal.arr [])

/-- Embeds `latency_sec // 60 if latency_sec else 0` (email_service.py line 113). -/
def latencyMinE (latency_sec : JVal) : Except String JVal :=
  if pyTruthy latency_sec then pyFloorDiv latency_sec 60 else pure (JVal.int 0)

/-- Embeds `format_duration(x) if x else "0m"` (email_service.py lines 143-144). -/
def stressTimeE (x : JVal) : Except String String :=
  if pyTruthy x then format_duration x else pure "0m"

/-- Embeds `f"{i:+.2f}"` at integer precision: explicit sign, two decimals. -/
def fmtSigned2 (i : Int) : String :=
  (if i < 0 then "-" else "+") ++ toString i.natAbs ++ ".00"

/-- Insert a comma after every three characters of a reversed digit list. -/
def commaRev : List Char → List Char
  | a :: b :: c :: d :: rest => a :: b :: c :: ',' :: commaRev (d :: rest)
  | xs => xs

/-- Embeds `f"{i:,}"`: decimal rendering with thousands separators. -/
def commaSep (i : Int) : String :=
  (if i < 0 then "-" else "") ++ String.mk (commaRev (toString i.natAbs).data.reverse).reverse

/-- One line per workout: `f"  {w_type}: {w_duration}, {w_cal} cal\n"`
(email_service.py lines 195-199). -/
def workoutLines : List JVal → Except String String
  | [] => .ok ""
  | w :: ws => do
      let w_type ← pyGetD w "activity" (.str "Unknown")
      let w_cal ← pyGetD w "calories" (.str "N/A")
      let wd ← pyGetD w "duration" (.int 0)
      let w_duration ← format_duration wd
      let rest ← workoutLines ws
      pure ("  " ++ pyStr w_type ++ ": " ++ w_duration ++ ", " ++ pyStr w_cal ++ " cal\n" ++ rest)

/-- The WORKOUTS section (email_service.py lines 193-201). -/
def mkWorkoutSection (workout_list : JVal) : Except String String :=
  if pyTruthy workout_list then do
    let ws ← pyIterList workout_list
    let lines ← workoutLines ws
    pure ("\nWORKOUTS\n" ++ lines)
  else
    pure "\nWORKOUTS\n  None logged\n"

/-- All values extracted by email_service.py lines 65-147 (plus the
contributor lookups and the WORKOUTS section, which the source evaluates
inside the report f-string itself): everything the fixed-layout report
interpolates. -/
structure ReportParts where
  date : JVal
  sleep_score : JVal
  activity_score : JVal
  readiness_score : JVal
  date_short : String
  bedtime_start : String
  bedtime_end : String
  time_in_bed : String
  total_sleep : String
  latency_min : JVal
  deep_duration : String
  rem_duration : String
  light_duration : String
  c_deep : JVal
  c_rem : JVal
  c_timing : JVal
  c_efficiency : JVal
  c_restfulness : JVal
  c_latency : JVal
  c_total : JVal
  avg_hr : JVal
  lowest_hr : JVal
  avg_hrv : JVal
  avg_breath : JVal
  restless : JVal
  temp_dev : String
  r_hrv_balance : JVal
  r_sleep_balance : JVal
  r_previous_night : JVal
  r_recovery_index : JVal
  steps : String
  active_cal : JVal
  low_activity : String
  med_activity : String
  high_activity : String
  stress_summary : JVal
  recovery_time : String
  stress_time : String
  activity_date_short : String
  workout_section : String

/-- The extraction phase of `format_oura_report` (email_service.py lines
65-147): every fallible navigation of the payload, in source order. -/
def extractParts (oura_data : List (String × JVal)) : Except String ReportParts := do
  let date := dget oura_data "date" (.str "Unknown")
  let activity_date := dget oura_data "activity_date" date
  let daily_sleep := dget oura_data "daily_sleep" (.obj [])
  let sleep_data ← firstData daily_sleep
  let sleep_periods := dget oura_data "sleep_periods" (.obj [])
  let period_data ← selectSleepPeriod sleep_periods
  let daily_activity := dget oura_data "daily_activity" (.obj [])
  let activity_data ← firstData daily_activity
  let daily_readiness := dget oura_data "daily_readiness" (.obj [])
  let readiness_data ← firstData daily_readiness
  let daily_stress := dget oura_data "daily_stress" (.obj [])
  let stress_data ← firstData daily_stress
  let workouts := dget oura_data "workouts" (.obj [])
  let workout_list ← workoutListE workouts
  let sleep_score ← pyGetD sleep_data "score" (.str "N/A")
  let activity_score ← pyGetD activity_data "score" (.str "N/A")
  let readiness_score ← pyGetD readiness_data "score" (.str "N/A")
  let sleep_contrib ← pyGetD sleep_data "contributors" (.obj [])
  let readiness_contrib ← pyGetD readiness_data "contributors" (.obj [])
  let bs ← pyGetD period_data "bedtime_start" (.str "")
  let be ← pyGetD period_data "bedtime_end" (.str "")
  let tib ← pyGetD period_data "time_in_bed" (.int 0)
  let time_in_bed ← format_duration tib
  let tsd ← pyGetD period_data "total_sleep_duration" (.int 0)
  let total_sleep ← format_duration tsd
  let latency_sec ← pyGetD period_data "latency" (.int 0)
  let latency_min ← latencyMinE latency_sec
  let dsd ← pyGetD period_data "deep_sleep_duration" (.int 0)
  let deep_duration ← format_duration dsd
  let rsd ← pyGetD period_data "rem_sleep_duration" (.int 0)
  let rem_duration ← format_duration rsd
  let lsd ← pyGetD period_data "light_sleep_duration" (.int 0)
  let light_duration ← format_duration lsd
  let avg_hr ← pyGetD period_data "average_heart_rate" (.str "N/A")
  let lowest_hr ← pyGetD period_data "lowest_heart_rate" (.str "N/A")
  let avg_hrv ← pyGetD period_data "average_hrv" (.str "N/A")
  let avg_breath ← pyGetD period_data "average_breath" (.str "N/A")
  let restless ← pyGetD period_data "restless_periods" (.str "N/A")
  let td ← pyGetD readiness_data "temperature_deviation" (.str "N/A")
  let temp_dev := match td with
    | .int i => fmtSigned2 i ++ "°C"
    | v => pyStr v
  let stepsv ← pyGetD activity_data "steps" (.str "N/A")
  let steps := match stepsv with
    | .int i => commaSep i
    | v => pyStr v
  let active_cal ← pyGetD activity_data "active_calories" (.str "N/A")
  let lat ← pyGetD activity_data "low_activity_time" (.int 0)
  let low_activity ← format_duration lat
  let mat ← pyGetD activity_data "medium_activity_time" (.int 0)
  let med_activity ← format_duration mat
  let hat ← pyGetD activity_data "high_activity_time" (.int 0)
  let high_activity ← format_duration hat
  let stress_summary ← pyGetD stress_data "day_summary" (.str "N/A")
  let recovery_high ← pyGetD stress_data "recovery_high" (.int 0)
  let stress_high ← pyGetD stress_data "stress_high" (.int 0)
  let recovery_time ← stressTimeE recovery_high
  let stress_time ← stressTimeE stress_high
  let date_short := format_date_short date
  let activity_date_short := format_date_short activity_date
  -- contributor lookups, written inside the f-string in the source
  let c_deep ← pyGetD sleep_contrib "deep_sleep" (.str "N/A")
  let c_rem ← pyGetD sleep_contrib "rem_sleep" (.str "N/A")
  let c_timing ← pyGetD sleep_contrib "timing" (.str "N/A")
  let c_efficiency ← pyGetD sleep_contrib "efficiency" (.str "N/A")
  let c_restfulness ← pyGetD sleep_contrib "restfulness" (.str "N/A")
  let c_latency ← pyGetD sleep_contrib "latency" (.str "N/A")
  let c_total ← pyGetD sleep_contrib "total_sleep" (.str "N/A")
  let r_hrv_balance ← pyGetD readiness_contrib "hrv_balance" (.str "N/A")
  let r_sleep_balance ← pyGetD readiness_contrib "sleep_balance" (.str "N/A")
  let r_previous_night ← pyGetD readiness_contrib "previous_night" (.str "N/A")
  let r_recovery_index ← pyGetD readiness_contrib "recovery_index" (.str "N/A")
  -- the WORKOUTS section, built by lines 193-201 of the source
  let workout_section ← mkWorkoutSection workout_list
  pure {
    date, sleep_score, activity_score, readiness_score, date_short,
    bedtime_start := format_time bs, bedtime_end := format_time be,
    time_in_bed, total_sleep, latency_min,
    deep_duration, rem_duration, light_duration,
    c_deep, c_rem, c_timing, c_efficiency, c_restfulness, c_latency, c_total,
    avg_hr, lowest_hr, avg_hrv, avg_breath, restless, temp_dev,
    r_hrv_balance, r_sleep_balance, r_previous_night, r_recovery_index,
    steps, active_cal, low_activity, med_activity, high_activity,
    stress_summary, recovery_time, stress_time, activity_date_short,
    workout_section }

/-- The report f-string (email_service.py lines 150-182), up to and
including the ACTIVITY section header. -/
def renderHead (p : ReportParts) : String :=
  "Oura Daily Report — " ++ pyStr p.date ++
  "\n\nSCORES\n  Sleep: " ++ pyStr p.sleep_score ++
  " | Activity: " ++ pyStr p.activity_score ++
  " | Readiness: " ++ pyStr p.readiness_score ++
  "\n\nSLEEP (" ++ p.date_short ++
  ")\n  Bedtime: " ++ p.bedtime_start ++ " → " ++ p.bedtime_end ++
  " (" ++ p.time_in_bed ++ " in bed)\n  Total sleep: " ++ p.total_sleep ++
  "\n  Latency: " ++ pyStr p.latency_min ++
  " min\n  \n  Stages:\n    Deep: " ++ p.deep_duration ++
  " (score: " ++ pyStr p.c_deep ++
  ")\n    REM: " ++ p.rem_duration ++
  " (score: " ++ pyStr p.c_rem ++
  ")\n    Light: " ++ p.light_duration ++
  "\n  \n  Contributors:\n    Timing: " ++ pyStr p.c_timing ++
  " | Efficiency: " ++ pyStr p.c_efficiency ++
  " | Restfulness: " ++ pyStr p.c_restfulness ++
  "\n    Latency: " ++ pyStr p.c_latency ++
  " | Total: " ++ pyStr p.c_total ++
  "\n  \n  Physiology:\n    Avg HR: " ++ pyStr p.avg_hr ++
  " bpm | Lowest: " ++ pyStr p.lowest_hr ++
  " bpm\n    Avg HRV: " ++ pyStr p.avg_hrv ++
  " ms\n    Avg breath: " ++ pyStr p.avg_breath ++
  "/min\n    Restless periods: " ++ pyStr p.restless ++
  "\n\nREADINESS\n  Score: " ++ pyStr p.readiness_score ++
  "\n  Temp deviation: " ++ p.temp_dev ++
  "\n  Contributors:\n    HRV balance: " ++ pyStr p.r_hrv_balance ++
  " | Sleep balance: " ++ pyStr p.r_sleep_balance ++
  "\n    Previous night: " ++ pyStr p.r_previous_night ++
  " | Recovery index: " ++ pyStr p.r_recovery_index ++
  "\n\nACTIVITY (" ++ p.activity_date_short ++ ")\n"

/-- The ACTIVITY field lines of the report f-string (lines 183-185). -/
def renderActivityFields (p : ReportParts) : String :=
  "  Steps: " ++ p.steps ++
  "\n  Active calories: " ++ pyStr p.active_cal ++
  "\n  Low activity: " ++ p.low_activity ++
  " | Medium: " ++ p.med_activity ++
  " | High: " ++ p.high_activity ++ "\n"

/-- The STRESS section (lines 187-190) and the appended WORKOUTS section. -/
def renderTail (p : ReportParts) : String :=
  "\nSTRESS (" ++ p.activity_date_short ++
  ")\n  Day summary: " ++ pyStr p.stress_summary ++
  "\n  Recovery time: " ++ p.recovery_time ++
  " | Stress time: " ++ p.stress_time ++ "\n" ++
  p.workout_section

/-- The full fixed-layout report text. -/
def renderReport (p : ReportParts) : String :=
  renderHead p ++ (renderActivityFields p ++ renderTail p)

/-- Embeds `format_oura_report` (email_service.py lines 61-203): extraction then
interpolation into the fixed template. -/
def format_oura_report (oura_data : List (String × JVal)) : Except String String := do
  let p ← extractParts oura_data
  pure (renderReport p)

/-- Everything of the HTML f-string before the embedded text report
(email_service.py lines 212-230); `\x7b`/`\x7d` are the literal braces the
doubled braces of the source produce. -/
def htmlBefore : String :=
  "\n<!DOCTYPE html>\n<html>\n<head>\n    <style>\n        body \x7b \n" ++
  "            font-family: monospace;\n            font-size: 14px;\n" ++
  "            line-height: 1.5;\n            color: #333;\n        \x7d\n" ++
  "        pre \x7b\n            white-space: pre-wrap;\n" ++
  "            font-family: monospace;\n        \x7d\n    </style>\n" ++
  "</head>\n<body>\n    <pre>"

/-- Everything of the HTML f-string after the embedded text report. -/
def htmlAfter : String := "</pre>\n</body>\n</html>\n"

/-- Embeds `format_html_report` (email_service.py lines 206-234): the text report,
embedded verbatim and unescaped in the wrapper. -/
def format_html_report (oura_data : List (String × JVal)) : Except String String := do
  let text_report ← format_oura_report oura_data
  pure (htmlBefore ++ text_report ++ htmlAfter)

/-! ### Well-formed payloads

The data model of the spec: each category slot holds either the category's
API response (`{"data": [record, ...]}` with schema-typed fields) or an
error marker (`{"error": reason}`).  The predicates below are the shapes on
which the Python formatter cannot raise; they are Bool-valued so concrete
payloads can be checked by evaluation. -/

/-- A value a duration field may hold: absent handling happens at the
lookup, so present values must be `None` or an int for `//` and
`format_duration` not to raise. -/
def isDurVal : JVal → Bool
  | .null => true
  | .int _ => true
  | _ => false

/-- The field named `k`, when present, is `None` or an int. -/
def fieldDurOK (fs : List (String × JVal)) (k : String) : Bool :=
  match dictLookup fs k with
  | none => true
  | some v => isDurVal v

/-- The `contributors` field, when present, is a dict (its own `.get` calls
would raise otherwise). -/
def contribOK (fs : List (String × JVal)) : Bool :=
  match dictLookup fs "contributors" with
  | none => true
  | some (.obj _) => true
  | some _ => false

/-- A record that must be a dict whose fields satisfy `check`. -/
def objOK (check : List (String × JVal) → Bool) : JVal → Bool
  | .obj fs => check fs
  | _ => false

@[reducible] def recSleepOK : JVal → Bool := objOK contribOK

@[reducible] def recPeriodOK : JVal → Bool :=
  objOK fun fs =>
    fieldDurOK fs "time_in_bed" && fieldDurOK fs "total_sleep_duration" &&
    fieldDurOK fs "latency" && fieldDurOK fs "deep_sleep_duration" &&
    fieldDurOK fs "rem_sleep_duration" && fieldDurOK fs "light_sleep_duration"

@[reducible] def recActivityOK : JVal → Bool :=
  objOK fun fs =>
    fieldDurOK fs "low_activity_time" && fieldDurOK fs "medium_activity_time" &&
    fieldDurOK fs "high_activity_time"

@[reducible] def recReadinessOK : JVal → Bool := objOK contribOK

@[reducible] def recStressOK : JVal → Bool :=
  objOK fun fs => fieldDurOK fs "recovery_high" && fieldDurOK fs "stress_high"

@[reducible] def recWorkoutOK : JVal → Bool := objOK fun fs => fieldDurOK fs "duration"

/-- A category slot: a dict whose `data` field, when truthy, is a list of
records of the right shape (an error marker has no `data` field and
qualifies trivially). -/
def slotOK (recOK : JVal → Bool) : JVal → Bool
  | .obj fs =>
      match dictLookup fs "data" with
      | none => true
      | some v => if pyTruthy v then (match v with | .arr xs => xs.all recOK | _ => false) else true
  | _ => false

/-- A slot key of the payload: absent, or a well-shaped slot value. -/
def slotAbsentOrOK (p : List (String × JVal)) (k : String) (recOK : JVal → Bool) : Bool :=
  match dictLookup p k with
  | none => true
  | some v => slotOK recOK v

/-- The `workouts` slot is additionally allowed to be any falsy value,
because the source guards it with `if workouts else []`. -/
def workoutsSlotOK : JVal → Bool :=
  fun v => if pyTruthy v then slotOK recWorkoutOK v else true

/-- A well-formed daily payload: every category slot the formatter touches
is absent or of the data-model shape. -/
def WFPayload (p : List (String × JVal)) : Bool :=
  slotAbsentOrOK p "daily_sleep" recSleepOK &&
  slotAbsentOrOK p "sleep_periods" recPeriodOK &&
  slotAbsentOrOK p "daily_activity" recActivityOK &&
  slotAbsentOrOK p "daily_readiness" recReadinessOK &&
  slotAbsentOrOK p "daily_stress" recStressOK &&
  (match dictLookup p "workouts" with
   | none => true
   | some v => workoutsSlotOK v)

/-! ### Calendar dates (oura_client.py lines 160-162)

`datetime.now()`, `timedelta(days=1)` and `strftime("%Y-%m-%d")` over the
proleptic Gregorian calendar used by Python's `datetime`. -/

structure Date where
  year : Nat
  month : Nat
  day : Nat
deriving Repr, DecidableEq

def Date.valid (d : Date) : Bool :=
  1 ≤ d.year && 1 ≤ d.month && d.month ≤ 12 && 1 ≤ d.day && d.day ≤ daysInMonth d.year d.month

def pad2 (n : Nat) : String := if n < 10 then "0" ++ toString n else toString n

def pad4 (n : Nat) : String :=
  if n < 10 then "000" ++ toString n
  else if n < 100 then "00" ++ toString n
  else if n < 1000 then "0" ++ toString n
  else toString n

/-- Python `strftime("%Y-%m-%d")`. -/
def Date.fmt (d : Date) : String :=
  pad4 d.year ++ "-" ++ pad2 d.month ++ "-" ++ pad2 d.day

/-- Python `date + timedelta(days=1)`. -/
def Date.succ (d : Date) : Date :=
  if d.day < daysInMonth d.year d.month then ⟨d.year, d.month, d.day + 1⟩
  else if d.month < 12 then ⟨d.year, d.month + 1, 1⟩
  else ⟨d.year + 1, 1, 1⟩

/-- Python `date - timedelta(days=1)`. -/
def Date.pred (d : Date) : Date :=
  if 1 < d.day then ⟨d.year, d.month, d.day - 1⟩
  else if 1 < d.month then ⟨d.year, d.month - 1, daysInMonth d.year (d.month - 1)⟩
  else ⟨d.year - 1, 12, 31⟩

/-- Cumulative days in the first `m` months of year `y` (spec-side measure
used to state that succ/pred move by exactly one day). -/
def monthsDays (y : Nat) (m : Nat) : Nat :=
  let leapDay := if isLeapYear y then 1 else 0
  match m with
  | 0 => 0
  | 1 => 31
  | 2 => 59 + leapDay
  | 3 => 90 + leapDay
  | 4 => 120 + leapDay
  | 5 => 151 + leapDay
  | 6 => 181 + leapDay
  | 7 => 212 + leapDay
  | 8 => 243 + leapDay
  | 9 => 273 + leapDay
  | 10 => 304 + leapDay
  | 11 => 334 + leapDay
  | _ => 365 + leapDay

/-- Leap years strictly before year `y`. -/
def leapsBefore (y : Nat) : Nat := (y - 1) / 4 - (y - 1) / 100 + (y - 1) / 400

/-- Days since 0001-01-01 (the proleptic Gregorian day count). -/
def dayNumber (d : Date) : Nat :=
  365 * (d.year - 1) + leapsBefore d.year + monthsDays d.year (d.month - 1) + (d.day - 1)

/-! ### The Oura client's daily fetch (oura_client.py lines 149-215) -/

/-- The seven data categories fetched by `get_todays_data`. -/
inductive Category where
  | dailySleep | sleepPeriods | dailyReadiness | dailyActivity
  | dailyStress | workouts | sleepTime
deriving Repr, DecidableEq

/-- The payload key each category's response is stored under. -/
def Category.slotKey : Category → String
  | .dailySleep => "daily_sleep"
  | .sleepPeriods => "sleep_periods"
  | .dailyReadiness => "daily_readiness"
  | .dailyActivity => "daily_activity"
  | .dailyStress => "daily_stress"
  | .workouts => "workouts"
  | .sleepTime => "sleep_time"

/-- The data-access collaborator: per category and date window, either the
parsed JSON dict of the response (`_make_request` is typed `-> dict`)
or a `requests.exceptions.RequestException` message. -/
def Fetch : Type := Category → String → String → Except String (List (String × JVal))

/-- One guarded fetch: the `try/except` blocks of lines 178-213 store the
response on success and `{"error": str(e)}` on failure. -/
def fetchSlot (fetch : Fetch) (c : Category) (s e : String) : JVal :=
  match fetch c s e with
  | .ok d => .obj d
  | .error msg => .obj [("error", .str msg)]

/-- Embeds `get_todays_data` (oura_client.py lines 149-215): date selection, the
initial all-`None` slot dict, and the seven guarded fetches in source
order.  `now` abstracts `datetime.now()` (a single local date) and
`fetchedAt` its `isoformat()` timestamp. -/
def get_todays_data (now : Date) (fetchedAt : String) (fetch : Fetch) :
    List (String × JVal) :=
  let yesterday := (Date.pred now).fmt
  let today := now.fmt
  let tomorrow := (Date.succ now).fmt
  let data : List (String × JVal) := [
    ("date", .str today),
    ("activity_date", .str yesterday),
    ("fetched_at", .str fetchedAt),
    ("daily_sleep", .null),
    ("sleep_periods", .null),
    ("daily_activity", .null),
    ("daily_readiness", .null),
    ("daily_stress", .null),
    ("workouts", .null),
    ("sleep_time", .null)]
  let data := dictSet data "daily_sleep" (fetchSlot fetch .dailySleep today tomorrow)
  let data := dictSet data "sleep_periods" (fetchSlot fetch .sleepPeriods today tomorrow)
  let data := dictSet data "daily_readiness" (fetchSlot fetch .dailyReadiness today tomorrow)
  let data := dictSet data "daily_activity" (fetchSlot fetch .dailyActivity yesterday today)
  let data := dictSet data "daily_stress" (fetchSlot fetch .dailyStress yesterday today)
  let data := dictSet data "workouts" (fetchSlot fetch .workouts yesterday today)
  let data := dictSet data "sleep_time" (fetchSlot fetch .sleepTime yesterday today)
  data

/-! ### Mail delivery and the one-shot run (email_service.py lines 302-322,
main.py lines 50-76) -/

/-- The arguments `send_oura_data` hands to `send_email`; the mail
transport itself is the external collaborator. -/
structure EmailArgs where
  recipient : String
  subject : String
  body_text : String
  body_html : Option String

/-- Embeds `EmailService.send_oura_data`: subject from the payload date, text and
HTML bodies from the formatters, result from `send_email`.  A formatter
exception propagates. -/
def send_oura_data (send_email : EmailArgs → Bool) (recipient : String)
    (oura_data : List (String × JVal)) : Except String Bool := do
  let date := dget oura_data "date" (.str "Unknown")
  let subject := "🌙 Oura Daily Report — " ++ pyStr date
  let body_text ← format_oura_report oura_data
  let body_html ← format_html_report oura_data
  pure (send_email { recipient, subject, body_text, body_html := some body_html })

/-- Embeds `send_daily_report` (main.py lines 50-76): fetch, then send; the
returned success flag is exactly `send_oura_data`'s result. -/
def send_daily_report (send_email : EmailArgs → Bool) (recipient : String)
    (now : Date) (fetchedAt : String) (fetch : Fetch) : Except String Bool :=
  send_oura_data send_email recipient (get_todays_data now fetchedAt fetch)

/-! ### Startup configuration (main.py lines 19-47) -/

/-- Strip the leading and trailing whitespace `int()` ignores. -/
def stripWS (s : String) : List Char :=
  ((s.data.dropWhile Char.isWhitespace).reverse.dropWhile Char.isWhitespace).reverse

mutual

/-- Digit run acceptable to `int()`: starts with a digit. -/
def vdStart : List Char → Bool
  | [] => false
  | c :: rest => c.isDigit && vdAfter rest

/-- Continuation after a digit: more digits, or a single underscore that
must be followed by another digit. -/
def vdAfter : List Char → Bool
  | [] => true
  | '_' :: rest => vdStart rest
  | c :: rest => c.isDigit && vdAfter rest

end

def digitsToNat (cs : List Char) : Nat :=
  (cs.filter (fun c => c ≠ '_')).foldl (fun a c => a * 10 + (c.toNat - 48)) 0

/-- Python `int(s)` (ASCII): optional surrounding whitespace, optional
sign, digits with single grouping underscores; `none` models the
`ValueError` it raises otherwise. -/
def pyInt (s : String) : Option Int :=
  match stripWS s with
  | '+' :: rest => if vdStart rest then some (digitsToNat rest) else none
  | '-' :: rest => if vdStart rest then some (-(digitsToNat rest : Int)) else none
  | rest => if vdStart rest then some (digitsToNat rest) else none

/-- The configuration dict built by `load_config`. -/
structure Config where
  oura_token : Option String
  smtp_server : String
  smtp_port : Int
  sender_email : Option String
  sender_password : Option String
  recipient_email : String
  schedule_time : String
deriving Repr, DecidableEq

/-- How `load_config` can terminate the process: `int()` raising during
config construction, or the missing-variable diagnostic plus `sys.exit(1)`. -/
inductive LoadError where
  | valueError (raw : String)
  | exitMissing (missing : List String) (msg : String)
deriving Repr, DecidableEq

/-- Embeds `os.getenv(k, d)`: the default applies only when the variable is unset;
an empty-string value is returned as is. -/
def getenvD (env : String → Option String) (k d : String) : String :=
  (env k).getD d

/-- Python `not config[k]` for an optional string: `None` and `""` are
falsy. -/
def strFalsy : Option String → Bool
  | none => true
  | some s => s = ""

/-- Embeds `load_config` (main.py lines 19-47).  The config dict is built first —
evaluating `int(os.getenv("SMTP_PORT", "587"))`, which raises on a
non-numeric value — and only then are the three required variables
checked, every missing one collected into a single diagnostic before
`sys.exit(1)`. -/
def load_config (env : String → Option String) : Except LoadError Config :=
  match pyInt (getenvD env "SMTP_PORT" "587") with
  | none => .error (.valueError (getenvD env "SMTP_PORT" "587"))
  | some port =>
      let config : Config := {
        oura_token := env "OURA_ACCESS_TOKEN",
        smtp_server := getenvD env "SMTP_SERVER" "smtp.gmail.com",
        smtp_port := port,
        sender_email := env "SENDER_EMAIL",
        sender_password := env "SENDER_PASSWORD",
        recipient_email := getenvD env "RECIPIENT_EMAIL" "cooperpenniman@gmail.com",
        schedule_time := getenvD env "SCHEDULE_TIME" "10:00" }
      let missing :=
        (if strFalsy config.oura_token then ["OURA_ACCESS_TOKEN"] else []) ++
        (if strFalsy config.sender_email then ["SENDER_EMAIL"] else []) ++
        (if strFalsy config.sender_password then ["SENDER_PASSWORD"] else [])
      if missing.isEmpty then .ok config
      else
        .error (.exitMissing missing
          ("Error: Missing required environment variables: " ++
            String.intercalate ", " missing))

/-! ### The scheduler loop (main.py lines 79-95)

Modelled from the spec: the daily-trigger bookkeeping (`schedule.every().
day.at(t).do(job)` / `schedule.run_pending()`) lives in the external
`schedule` library, not under src/; only the registration call and the
poll-every-minute loop are in main.py.  Per the spec (§4.5), the job keeps
a next-run time at the configured trigger; a poll at or past it runs the
job once and re-arms for the next occurrence.  Time is in minutes; `T` is
the trigger's minute-of-day. -/

/-- The next minute `≥ t` whose minute-of-day is `T`. -/
def nextFireAtOrAfter (T t : Nat) : Nat :=
  if t % 1440 ≤ T then t - t % 1440 + T else t - t % 1440 + 1440 + T

/-- One `schedule.run_pending()` poll at minute `t`: fire when the next-run
time has been reached and re-arm strictly after `t`; `Running → Idle` is
unconditional (the resulting state is again just a next-run time,
whatever the job returned). -/
def schedStep (T : Nat) (nextFire t : Nat) : Nat × Bool :=
  if nextFire ≤ t then (nextFireAtOrAfter T (t + 1), true) else (nextFire, false)

/-- The `while True: run_pending(); sleep(60)` loop for `n` polls starting
at minute `t`, collecting the minutes at which the job ran. -/
def schedRun (T : Nat) : Nat → Nat → Nat → List Nat
  | _, _, 0 => []
  | nextFire, t, n + 1 =>
      match schedStep T nextFire t with
      | (nf, fired) => (if fired then [t] else []) ++ schedRun T nf (t + 1) n

/-- Embeds `run_scheduler`: register the daily trigger at minute-of-day `T` at
time `t₀`, then poll every minute, `n` times. -/
def schedulerFires (T t₀ n : Nat) : List Nat :=
  schedRun T (nextFireAtOrAfter T t₀) t₀ n

/-- The rendered value of a plain field of the activity record. -/
def fieldRender (k : String) : JVal → JVal
  | .obj fs => dget fs k (.str "N/A")
  | _ => .str "N/A"

/-- The rendered steps value of the activity record (comma-grouped when an
int). -/
def stepsRender (act : JVal) : String :=
  match fieldRender "steps" act with
  | .int i => commaSep i
  | v => pyStr v

/-- The rendered value of a duration field of the activity record. -/
def durFieldRender (k : String) : JVal → Except String String
  | .obj fs => format_duration (dget fs k (.int 0))
  | _ => format_duration (.int 0)

/-- A sleep-period record tagged as a rest period. -/
def restPeriod : JVal :=
  .obj [("type", .str "rest"), ("total_sleep_duration", .int 600)]

/-- A sleep-period record tagged as the primary overnight sleep. -/
def longPeriod : JVal :=
  .obj [("type", .str "long_sleep"), ("total_sleep_duration", .int 27600)]

/-- A representative well-formed payload with every category populated. -/
def demoPayload : List (String × JVal) := [
  ("date", .str "2024-12-27"),
  ("activity_date", .str "2024-12-26"),
  ("fetched_at", .str "2024-12-27T10:00:01"),
  ("daily_sleep", .obj [("data", .arr [.obj [("score", .int 82),
      ("contributors", .obj [("deep_sleep", .int 90), ("rem_sleep", .int 70),
        ("timing", .int 60), ("efficiency", .int 95), ("restfulness", .int 55),
        ("latency", .int 80), ("total_sleep", .int 75)])]])]),
  ("sleep_periods", .obj [("data", .arr [restPeriod,
     .obj [("type", .str "long_sleep"),
       ("bedtime_start", .str "2024-12-27T02:01:00Z"),
       ("bedtime_end", .str "2024-12-27T09:30:00Z"),
       ("time_in_bed", .int 27000), ("total_sleep_duration", .int 27600),
       ("latency", .int 540), ("deep_sleep_duration", .int 5400),
       ("rem_sleep_duration", .int 7200), ("light_sleep_duration", .int 15000),
       ("average_heart_rate", .int 58), ("lowest_heart_rate", .int 48),
       ("average_hrv", .int 45), ("average_breath", .int 14),
       ("restless_periods", .int 3)]])]),
  ("daily_activity", .obj [("data", .arr [.obj [("score", .int 77),
      ("steps", .int 12345), ("active_calories", .int 450),
      ("low_activity_time", .int 10800), ("medium_activity_time", .int 3600),
      ("high_activity_time", .int 600)]])]),
  ("daily_readiness", .obj [("data", .arr [.obj [("score", .int 85),
      ("temperature_deviation", .int 0),
      ("contributors", .obj [("hrv_balance", .int 88), ("sleep_balance", .int 92),
        ("previous_night", .int 70), ("recovery_index", .int 65)])]])]),
  ("daily_stress", .obj [("data", .arr [.obj [("day_summary", .str "normal"),
      ("recovery_high", .int 3600), ("stress_high", .int 1800)]])]),
  ("workouts", .obj [("data", .arr [.obj [("activity", .str "running"),
      ("calories", .int 300), ("duration", .int 1800)]])]),
  ("sleep_time", .obj [("data", .arr [])])]

/-- A well-formed payload in which the sleep score and the time-in-bed
duration are stored as JSON null (not absent). -/
def nullFieldPayload : List (String × JVal) := [
  ("date", .str "2024-12-27"),
  ("daily_sleep", .obj [("data", .arr [.obj [("score", .null)]])]),
  ("sleep_periods", .obj [("data", .arr [.obj [("type", .str "long_sleep"),
      ("time_in_bed", .null)]])])]

/-- A fetch with the activity category down and everything else up. -/
def wFetchDown : Fetch := fun c _ _ =>
  if c = .dailyActivity then .error "503 Server Error"
  else .ok [("data", .arr [])]

/-- The same fetch with the activity category also up. -/
def wFetchUp : Fetch := fun _ _ _ => .ok [("data", .arr [])]

/-- An environment with the access credential missing and a non-numeric
`SMTP_PORT`. -/
def badPortEnv : String → Option String :=
  fun k => if k = "SMTP_PORT" then some "abc" else none

/-- An environment with all three required variables set. -/
def fullEnv : String → Option String := fun k =>
  if k = "OURA_ACCESS_TOKEN" then some "tok"
  else if k = "SENDER_EMAIL" then some "me@example.com"
  else if k = "SENDER_PASSWORD" then some "pw"
  else none

/-- Discriminator for the missing-variables exit (used to state the C8
counterexample without binders). -/
def isExitMissing : Except LoadError Config → Bool
  | .error (.exitMissing _ _) => true
  | _ => false

/-! ### Helper lemmas for the totality proof -/

theorem ok_bind {α β : Type} (a : α) (f : α → Except String β) :
    (Except.ok a >>= f) = f a := rfl

theorem dictLookup_dictSet (k : String) (v : JVal) (k₂ : String) :
    ∀ fs, dictLookup (dictSet fs k v) k₂ = if k₂ = k then some v else dictLookup fs k₂
  | [] => by
      by_cases h : k₂ = k
      · subst h; simp [dictSet, dictLookup]
      · simp [dictSet, dictLookup, h, Ne.symm h]
  | (a, b) :: tl => by
      by_cases hak : a = k
      · subst hak
        by_cases h : k₂ = a
        · subst h; simp [dictSet, dictLookup]
        · simp [dictSet, dictLookup, h, Ne.symm h]
      · by_cases h : k₂ = a
        · subst h
          have hk : ¬ k₂ = k := hak
          simp [dictSet, dictLookup, hak, hk]
        · simp [dictSet, dictLookup, hak, h, Ne.symm h, dictLookup_dictSet k v k₂ tl]

theorem slotOK_dget {p : List (String × JVal)} {k : String} {recOK : JVal → Bool}
    (h : slotAbsentOrOK p k recOK = true) : slotOK recOK (dget p k (.obj [])) = true := by
  unfold slotAbsentOrOK at h
  unfold dget
  cases hl : dictLookup p k with
  | none => simp [slotOK, dictLookup]
  | some v => rw [hl] at h; simpa using h

theorem objOK_elim {c : List (String × JVal) → Bool} {v : JVal} (h : objOK c v = true) :
    ∃ fs, v = .obj fs ∧ c fs = true := by
  cases v <;> simp_all [objOK]

theorem firstData_ok {c : List (String × JVal) → Bool} {slot : JVal}
    (h : slotOK (objOK c) slot = true) (h0 : c [] = true) :
    ∃ fs, firstData slot = .ok (.obj fs) ∧ c fs = true := by
  cases slot with
  | obj fs =>
      simp only [slotOK] at h
      cases hl : dictLookup fs "data" with
      | none =>
          exact ⟨[], by simp [firstData, pyGetE, pyGetD, dget, hl, pyTruthy, ok_bind,
                              pure, Except.pure], h0⟩
      | some v =>
          rw [hl] at h
          by_cases ht : pyTruthy v = true
          · simp only [ht, if_true] at h
            cases v with
            | arr xs =>
                cases xs with
                | nil => simp [pyTruthy] at ht
                | cons x rest =>
                    simp only [List.all_cons, Bool.and_eq_true] at h
                    obtain ⟨fx, hfx, hcx⟩ := objOK_elim h.1
                    subst hfx
                    exact ⟨fx, by simp [firstData, pyGetE, pyGetD, dget, hl, ht, pyIndex0,
                                        ok_bind], hcx⟩
            | null => simp [pyTruthy] at ht
            | int i => simp at h
            | str s => simp at h
            | obj g => simp at h
          · have ht' : pyTruthy v = false := by simpa using ht
            exact ⟨[], by simp [firstData, pyGetE, pyGetD, dget, hl, ht', ok_bind,
                                pure, Except.pure], h0⟩
  | null => simp [slotOK] at h
  | int i => simp [slotOK] at h
  | str s => simp [slotOK] at h
  | arr xs => simp [slotOK] at h

theorem findLongSleep_eq :
    ∀ xs : List JVal, (∀ q ∈ xs, ∃ fs, q = JVal.obj fs) →
      findLongSleep xs = .ok (List.find? isLongSleepPeriod xs)
  | [], _ => rfl
  | p :: ps, h => by
      obtain ⟨fs, hfs⟩ := h p (by simp)
      subst hfs
      have ih := findLongSleep_eq ps (fun q hq => h q (by simp [hq]))
      by_cases ht : isLongSleepPeriod (JVal.obj fs) = true
      · have ht' : isLongSleepTag (dget fs "type" .null) = true := by
          simp only [isLongSleepPeriod] at ht
          cases hl : dictLookup fs "type" with
          | none => rw [hl] at ht; simp at ht
          | some v => rw [hl] at ht; simpa [dget, hl] using ht
        simp [findLongSleep, pyGetE, ok_bind, ht', List.find?, ht, pure, Except.pure]
      · have ht' : isLongSleepTag (dget fs "type" .null) = false := by
          simp only [isLongSleepPeriod] at ht
          cases hl : dictLookup fs "type" with
          | none => simp [dget, hl, isLongSleepTag]
          | some v => rw [hl] at ht; simpa [dget, hl] using ht
        simp [findLongSleep, pyGetE, ok_bind, ht', List.find?, ht, ih]

/-- A record carrying the long-sleep tag is a non-empty dict, hence truthy. -/
theorem isLongSleepPeriod_truthy {q : JVal} (h : isLongSleepPeriod q = true) :
    pyTruthy q = true := by
  cases q with
  | obj fs =>
      cases fs with
      | nil => simp [isLongSleepPeriod, dictLookup] at h
      | cons a tl => simp [pyTruthy]
  | null => simp [isLongSleepPeriod] at h
  | int i => simp [isLongSleepPeriod] at h
  | str s => simp [isLongSleepPeriod] at h
  | arr xs => simp [isLongSleepPeriod] at h

theorem selectSleepPeriod_ok {c : List (String × JVal) → Bool} {sp : JVal}
    (h : slotOK (objOK c) sp = true) (h0 : c [] = true) :
    ∃ fs, selectSleepPeriod sp = .ok (.obj fs) ∧ c fs = true := by
  cases sp with
  | obj fs =>
      simp only [slotOK] at h
      cases hl : dictLookup fs "data" with
      | none =>
          exact ⟨[], by simp [selectSleepPeriod, pyGetE, dget, hl, pyTruthy, ok_bind,
                              pure, Except.pure], h0⟩
      | some v =>
          rw [hl] at h
          by_cases ht : pyTruthy v = true
          · simp only [ht, if_true] at h
            cases v with
            | arr xs =>
                have hobjs : ∀ q ∈ xs, ∃ g, q = JVal.obj g := by
                  intro q hq
                  have := List.all_eq_true.mp h q hq
                  obtain ⟨g, hg, _⟩ := objOK_elim this
                  exact ⟨g, hg⟩
                have hfind := findLongSleep_eq xs hobjs
                cases hf : List.find? isLongSleepPeriod xs with
                | some q =>
                    have hq : isLongSleepPeriod q = true := List.find?_some hf
                    have hmem : q ∈ xs := List.mem_of_find?_eq_some hf
                    obtain ⟨g, hg, hcg⟩ := objOK_elim (List.all_eq_true.mp h q hmem)
                    subst hg
                    exact ⟨g, by simp [selectSleepPeriod, pyGetE, dget, hl, ht, pyIterList,
                                       ok_bind, hfind, hf, isLongSleepPeriod_truthy hq,
                                       pure, Except.pure], hcg⟩
                | none =>
                    cases xs with
                    | nil => simp [pyTruthy] at ht
                    | cons x rest =>
                        obtain ⟨g, hg, hcg⟩ := objOK_elim (List.all_eq_true.mp h x (by simp))
                        subst hg
                        exact ⟨g, by simp [selectSleepPeriod, pyGetE, dget, hl, ht, pyIterList,
                                           ok_bind, hfind, hf, pyTruthy, pure, Except.pure],
                               hcg⟩
            | null => simp [pyTruthy] at ht
            | int i => simp at h
            | str s => simp at h
            | obj g => simp at h
          · have ht' : pyTruthy v = false := by simpa using ht
            exact ⟨[], by simp [selectSleepPeriod, pyGetE, dget, hl, ht', ok_bind,
                                pure, Except.pure], h0⟩
  | null => simp [slotOK] at h
  | int i => simp [slotOK] at h
  | str s => simp [slotOK] at h
  | arr xs => simp [slotOK] at h

theorem format_duration_dget_ok {fs : List (String × JVal)} {k : String}
    (h : fieldDurOK fs k = true) :
    ∃ s, format_duration (dget fs k (.int 0)) = .ok s := by
  unfold fieldDurOK at h
  cases hl : dictLookup fs k with
  | none => exact ⟨_, by simp only [dget, hl, Option.getD_none]; rfl⟩
  | some v =>
      rw [hl] at h
      cases v with
      | null => exact ⟨_, by simp only [dget, hl, Option.getD_some]; rfl⟩
      | int i => exact ⟨_, by simp only [dget, hl, Option.getD_some]; rfl⟩
      | str s => simp [isDurVal] at h
      | arr xs => simp [isDurVal] at h
      | obj g => simp [isDurVal] at h

/-- Embeds `x // 60 if x else 0` succeeds when the field is absent, `None` or an
int (email_service.py lines 112-113). -/
theorem latency_ok {fs : List (String × JVal)} {k : String}
    (h : fieldDurOK fs k = true) :
    ∃ v, latencyMinE (dget fs k (.int 0)) = Except.ok v := by
  unfold fieldDurOK at h
  unfold latencyMinE
  cases hl : dictLookup fs k with
  | none => exact ⟨_, by simp only [dget, hl, Option.getD_none]; rfl⟩
  | some v =>
      rw [hl] at h
      cases v with
      | null => exact ⟨_, by simp only [dget, hl, Option.getD_some]; rfl⟩
      | int i =>
          by_cases hz : i = 0
          · subst hz; exact ⟨_, by simp only [dget, hl, Option.getD_some]; rfl⟩
          · have htz : pyTruthy (JVal.int i) = true := by simp [pyTruthy, hz]
            exact ⟨_, by simp only [dget, hl, Option.getD_some, htz, if_true]; rfl⟩
      | str s => simp [isDurVal] at h
      | arr xs => simp [isDurVal] at h
      | obj g => simp [isDurVal] at h

/-- Embeds `format_duration(x) if x else "0m"` succeeds when the field is absent,
`None` or an int (email_service.py lines 143-144). -/
theorem stress_time_ok {fs : List (String × JVal)} {k : String}
    (h : fieldDurOK fs k = true) :
    ∃ s, stressTimeE (dget fs k (.int 0)) = Except.ok s := by
  unfold fieldDurOK at h
  unfold stressTimeE
  cases hl : dictLookup fs k with
  | none => exact ⟨_, by simp only [dget, hl, Option.getD_none]; rfl⟩
  | some v =>
      rw [hl] at h
      cases v with
      | null => exact ⟨_, by simp only [dget, hl, Option.getD_some]; rfl⟩
      | int i =>
          by_cases hz : i = 0
          · subst hz; exact ⟨_, by simp only [dget, hl, Option.getD_some]; rfl⟩
          · have htz : pyTruthy (JVal.int i) = true := by simp [pyTruthy, hz]
            exact ⟨_, by simp only [dget, hl, Option.getD_some, htz, if_true]; rfl⟩
      | str s => simp [isDurVal] at h
      | arr xs => simp [isDurVal] at h
      | obj g => simp [isDurVal] at h

theorem workoutLines_ok :
    ∀ ws : List JVal, ws.all recWorkoutOK = true → ∃ s, workoutLines ws = .ok s
  | [], _ => ⟨"", rfl⟩
  | w :: ws, h => by
      simp only [List.all_cons, Bool.and_eq_true] at h
      obtain ⟨g, hg, hdur⟩ := objOK_elim h.1
      subst hg
      obtain ⟨d, hd⟩ := format_duration_dget_ok hdur
      obtain ⟨rest, hrest⟩ := workoutLines_ok ws h.2
      exact ⟨_, by simp only [workoutLines, pyGetD, ok_bind, hd, hrest]; rfl⟩

theorem mkWorkoutSection_ok {wl : JVal}
    (h : pyTruthy wl = true → ∃ xs, wl = JVal.arr xs ∧ xs.all recWorkoutOK = true) :
    ∃ s, mkWorkoutSection wl = .ok s := by
  by_cases ht : pyTruthy wl = true
  · obtain ⟨xs, hxs, hall⟩ := h ht
    subst hxs
    obtain ⟨s, hs⟩ := workoutLines_ok xs hall
    exact ⟨_, by simp only [mkWorkoutSection, ht, if_true, pyIterList, ok_bind, hs]; rfl⟩
  · have ht' : pyTruthy wl = false := by simpa using ht
    exact ⟨_, by simp only [mkWorkoutSection, ht', Bool.false_eq_true, if_false]; rfl⟩

/-- The `workout_list` extraction (email_service.py lines 93-94) succeeds
and yields either a falsy value or a list of well-shaped workout records. -/
theorem workoutList_ok {v : JVal} (h : workoutsSlotOK v = true) :
    ∃ wl, workoutListE v = .ok wl ∧
      (pyTruthy wl = true → ∃ xs, wl = JVal.arr xs ∧ xs.all recWorkoutOK = true) := by
  unfold workoutListE
  by_cases ht : pyTruthy v = true
  · unfold workoutsSlotOK at h
    rw [if_pos ht] at h
    cases v with
    | obj fs =>
        simp only [slotOK] at h
        cases hl : dictLookup fs "data" with
        | none =>
            refine ⟨.arr [], by simp [ht, pyGetD, dget, hl], ?_⟩
            intro htl; simp [pyTruthy] at htl
        | some w =>
            rw [hl] at h
            refine ⟨w, by simp [ht, pyGetD, dget, hl], ?_⟩
            intro htw
            simp only [htw, if_true] at h
            cases w with
            | arr xs => exact ⟨xs, rfl, h⟩
            | null => simp [pyTruthy] at htw
            | int i => simp at h
            | str s => simp at h
            | obj g => simp at h
    | null => simp [pyTruthy] at ht
    | int i => simp [slotOK] at h
    | str s => simp [slotOK] at h
    | arr xs => simp [slotOK] at h
  · have ht' : pyTruthy v = false := by simpa using ht
    refine ⟨.arr [], ?_, ?_⟩
    · simp only [ht', Bool.false_eq_true, if_false]; rfl
    · intro htl; simp [pyTruthy] at htl

theorem contrib_obj {fs : List (String × JVal)} (h : contribOK fs = true) :
    ∃ g, dget fs "contributors" (.obj []) = .obj g := by
  unfold contribOK at h
  cases hl : dictLookup fs "contributors" with
  | none => exact ⟨[], by simp [dget, hl]⟩
  | some v =>
      rw [hl] at h
      cases v with
      | obj g => exact ⟨g, by simp [dget, hl]⟩
      | null => simp at h
      | int i => simp at h
      | str s => simp at h
      | arr xs => simp at h

/-- Totality of the extraction phase on well-formed payloads, together with
a characterisation of the ACTIVITY fields in terms of the extracted
activity record. -/
theorem extractParts_ok (p : List (String × JVal)) (h : WFPayload p = true) :
    ∃ parts act, extractParts p = .ok parts ∧
      firstData (dget p "daily_activity" (.obj [])) = .ok act ∧
      parts.steps = stepsRender act ∧
      parts.active_cal = fieldRender "active_calories" act ∧
      durFieldRender "low_activity_time" act = .ok parts.low_activity ∧
      durFieldRender "medium_activity_time" act = .ok parts.med_activity ∧
      durFieldRender "high_activity_time" act = .ok parts.high_activity := by
  unfold WFPayload at h
  simp only [Bool.and_eq_true] at h
  obtain ⟨⟨⟨⟨⟨h1, h2⟩, h3⟩, h4⟩, h5⟩, h6⟩ := h
  obtain ⟨fsS, hS, hSc⟩ := firstData_ok (slotOK_dget h1) (by rfl)
  obtain ⟨fsP, hP, hPc⟩ := selectSleepPeriod_ok (slotOK_dget h2) (by rfl)
  obtain ⟨fsA, hA, hAc⟩ := firstData_ok (slotOK_dget h3) (by rfl)
  obtain ⟨fsR, hR, hRc⟩ := firstData_ok (slotOK_dget h4) (by rfl)
  obtain ⟨fsT, hT, hTc⟩ := firstData_ok (slotOK_dget h5) (by rfl)
  have hw : workoutsSlotOK (dget p "workouts" (.obj [])) = true := by
    cases hl : dictLookup p "workouts" with
    | none => simp [dget, hl, workoutsSlotOK, pyTruthy]
    | some v => rw [hl] at h6; simpa [dget, hl] using h6
  obtain ⟨wl, hwl, hwlOK⟩ := workoutList_ok hw
  obtain ⟨wsec, hwsec⟩ := mkWorkoutSection_ok hwlOK
  simp only [Bool.and_eq_true] at hPc hAc hTc
  obtain ⟨⟨⟨⟨⟨hp1, hp2⟩, hp3⟩, hp4⟩, hp5⟩, hp6⟩ := hPc
  obtain ⟨⟨ha1, ha2⟩, ha3⟩ := hAc
  obtain ⟨ht1, ht2⟩ := hTc
  obtain ⟨s_tib, h_tib⟩ := format_duration_dget_ok hp1
  obtain ⟨s_tsd, h_tsd⟩ := format_duration_dget_ok hp2
  obtain ⟨v_lat, h_lat⟩ := latency_ok hp3
  obtain ⟨s_dsd, h_dsd⟩ := format_duration_dget_ok hp4
  obtain ⟨s_rsd, h_rsd⟩ := format_duration_dget_ok hp5
  obtain ⟨s_lsd, h_lsd⟩ := format_duration_dget_ok hp6
  obtain ⟨s_low, h_low⟩ := format_duration_dget_ok ha1
  obtain ⟨s_med, h_med⟩ := format_duration_dget_ok ha2
  obtain ⟨s_high, h_high⟩ := format_duration_dget_ok ha3
  obtain ⟨s_rec, h_rec⟩ := stress_time_ok ht1
  obtain ⟨s_str, h_str⟩ := stress_time_ok ht2
  obtain ⟨gS, hgS⟩ := contrib_obj hSc
  obtain ⟨gR, hgR⟩ := contrib_obj hRc
  have hmain : extractParts p = Except.ok {
      date := dget p "date" (.str "Unknown"),
      sleep_score := dget fsS "score" (.str "N/A"),
      activity_score := dget fsA "score" (.str "N/A"),
      readiness_score := dget fsR "score" (.str "N/A"),
      date_short := format_date_short (dget p "date" (.str "Unknown")),
      bedtime_start := format_time (dget fsP "bedtime_start" (.str "")),
      bedtime_end := format_time (dget fsP "bedtime_end" (.str "")),
      time_in_bed := s_tib,
      total_sleep := s_tsd,
      latency_min := v_lat,
      deep_duration := s_dsd,
      rem_duration := s_rsd,
      light_duration := s_lsd,
      c_deep := dget gS "deep_sleep" (.str "N/A"),
      c_rem := dget gS "rem_sleep" (.str "N/A"),
      c_timing := dget gS "timing" (.str "N/A"),
      c_efficiency := dget gS "efficiency" (.str "N/A"),
      c_restfulness := dget gS "restfulness" (.str "N/A"),
      c_latency := dget gS "latency" (.str "N/A"),
      c_total := dget gS "total_sleep" (.str "N/A"),
      avg_hr := dget fsP "average_heart_rate" (.str "N/A"),
      lowest_hr := dget fsP "lowest_heart_rate" (.str "N/A"),
      avg_hrv := dget fsP "average_hrv" (.str "N/A"),
      avg_breath := dget fsP "average_breath" (.str "N/A"),
      restless := dget fsP "restless_periods" (.str "N/A"),
      temp_dev := match dget fsR "temperature_deviation" (.str "N/A") with
        | .int i => fmtSigned2 i ++ "°C"
        | v => pyStr v,
      r_hrv_balance := dget gR "hrv_balance" (.str "N/A"),
      r_sleep_balance := dget gR "sleep_balance" (.str "N/A"),
      r_previous_night := dget gR "previous_night" (.str "N/A"),
      r_recovery_index := dget gR "recovery_index" (.str "N/A"),
      steps := match dget fsA "steps" (.str "N/A") with
        | .int i => commaSep i
        | v => pyStr v,
      active_cal := dget fsA "active_calories" (.str "N/A"),
      low_activity := s_low,
      med_activity := s_med,
      high_activity := s_high,
      stress_summary := dget fsT "day_summary" (.str "N/A"),
      recovery_time := s_rec,
      stress_time := s_str,
      activity_date_short :=
        format_date_short (dget p "activity_date" (dget p "date" (.str "Unknown"))),
      workout_section := wsec } := by
    simp only [extractParts, hS, hP, hA, hR, hT, hwl, hwsec, pyGetD, ok_bind,
               hgS, hgR, h_tib, h_tsd, h_lat, h_dsd, h_rsd, h_lsd,
               h_low, h_med, h_high, h_rec, h_str]
    rfl
  refine ⟨_, .obj fsA, hmain, hA, rfl, rfl, ?_, ?_, ?_⟩
  · exact h_low
  · exact h_med
  · exact h_high

/-- Overwriting the `daily_activity` slot with an error marker preserves
well-formedness (a marker dict has no `data` field). -/
theorem slotAbsentOrOK_dictSet (p : List (String × JVal)) (k k₂ : String) (v : JVal)
    (recOK : JVal → Bool) :
    slotAbsentOrOK (dictSet p k v) k₂ recOK =
      if k₂ = k then slotOK recOK v else slotAbsentOrOK p k₂ recOK := by
  by_cases h : k₂ = k <;> simp [slotAbsentOrOK, dictLookup_dictSet, h]

theorem WFPayload_setActivityError (p : List (String × JVal)) (msg : String)
    (h : WFPayload p = true) :
    WFPayload (dictSet p "daily_activity" (JVal.obj [("error", JVal.str msg)])) = true := by
  unfold WFPayload at h ⊢
  simp only [Bool.and_eq_true] at h ⊢
  obtain ⟨⟨⟨⟨⟨h1, h2⟩, h3⟩, h4⟩, h5⟩, h6⟩ := h
  refine ⟨⟨⟨⟨⟨?_, ?_⟩, ?_⟩, ?_⟩, ?_⟩, ?_⟩
  · simpa [slotAbsentOrOK_dictSet] using h1
  · simpa [slotAbsentOrOK_dictSet] using h2
  · simp [slotAbsentOrOK_dictSet, slotOK, dictLookup]
  · simpa [slotAbsentOrOK_dictSet] using h4
  · simpa [slotAbsentOrOK_dictSet] using h5
  · simpa [dictLookup_dictSet] using h6

/-! ### Claim C1: sleep-period disambiguation -/

/-- C1: for a non-empty sleep-period list the formatter selects the (first)
record whose type tag is "long_sleep", regardless of its position; with no
such tag it selects the first record; an empty list yields the all-absent
record `{}`, whose fields render as the "N/A"/"0m" placeholders. -/
theorem sleep_period_selection_spec (ps : List JVal)
    (hobj : ∀ q ∈ ps, ∃ fs, q = JVal.obj fs) :
    (∀ p, List.find? isLongSleepPeriod ps = some p →
        selectSleepPeriod (JVal.obj [("data", JVal.arr ps)]) = .ok p) ∧
    (List.find? isLongSleepPeriod ps = none → ps ≠ [] →
        selectSleepPeriod (JVal.obj [("data", JVal.arr ps)]) = .ok (ps.headD (JVal.obj []))) ∧
    selectSleepPeriod (JVal.obj [("data", JVal.arr [])]) = .ok (JVal.obj []) ∧
    format_time (dget [] "bedtime_start" (.str "")) = "N/A" ∧
    format_duration (dget [] "total_sleep_duration" (.int 0)) = .ok "0m" := by
  refine ⟨?_, ?_, ?_, rfl, rfl⟩
  · intro p hfind
    have hfl := findLongSleep_eq ps hobj
    have hne : ps ≠ [] := by
      intro hnil; subst hnil; simp at hfind
    have htr : pyTruthy p = true := isLongSleepPeriod_truthy (List.find?_some hfind)
    cases ps with
    | nil => exact absurd rfl hne
    | cons a as =>
        have htrl : pyTruthy (JVal.arr (a :: as)) = true := by simp [pyTruthy]
        simp [selectSleepPeriod, pyGetE, dget, dictLookup, htrl, pyIterList,
              ok_bind, hfl, hfind, htr]
        rfl
  · intro hfind hne
    have hfl := findLongSleep_eq ps hobj
    cases ps with
    | nil => exact absurd rfl hne
    | cons a as =>
        have htrl : pyTruthy (JVal.arr (a :: as)) = true := by simp [pyTruthy]
        have htr0 : pyTruthy (JVal.obj []) = false := by simp [pyTruthy]
        simp [selectSleepPeriod, pyGetE, dget, dictLookup, htrl, htr0, pyIterList,
              ok_bind, hfl, hfind]
        rfl
  · rfl

/-- C1 witness: with a rest period before the overnight record, the
overnight record is selected. -/
theorem sleep_period_selection_witness :
    selectSleepPeriod (JVal.obj [("data", JVal.arr [restPeriod, longPeriod])]) =
      .ok longPeriod := by
  refine (sleep_period_selection_spec [restPeriod, longPeriod] ?_).1 longPeriod (by rfl)
  intro q hq
  simp only [List.mem_cons, List.mem_singleton, List.not_mem_nil, or_false] at hq
  rcases hq with h | h <;> subst h
  · exact ⟨_, rfl⟩
  · exact ⟨_, rfl⟩

/-! ### Claim C3: format_duration -/

/-- C3: `format_duration` renders an int as `"{hours}h {minutes}m"` when
hours > 0 and as `"{minutes}m"` otherwise (Python floor semantics); `0`
gives "0m", `7*3600+40*60` gives "7h 40m", and `None` gives "N/A". -/
theorem format_duration_spec :
    format_duration .null = .ok "N/A" ∧
    format_duration (.int 0) = .ok "0m" ∧
    format_duration (.int (7 * 3600 + 40 * 60)) = .ok "7h 40m" ∧
    ∀ seconds : Int, format_duration (.int seconds) =
      .ok (if Int.fdiv seconds 3600 > 0 then
             toString (Int.fdiv seconds 3600) ++ "h " ++
               toString (Int.fdiv (Int.fmod seconds 3600) 60) ++ "m"
           else toString (Int.fdiv (Int.fmod seconds 3600) 60) ++ "m") :=
  ⟨rfl, rfl, rfl, fun _ => rfl⟩

/-! ### Claim C6: the HTML report is a typographic wrapper -/

/-- C6: the HTML rendering is the fixed wrapper `htmlBefore`/`htmlAfter`
with the exact text report embedded verbatim (unescaped) in its
whitespace-preserving `<pre>` block. -/
theorem html_report_wraps_text (oura_data : List (String × JVal)) (t : String)
    (h : format_oura_report oura_data = .ok t) :
    format_html_report oura_data = .ok (htmlBefore ++ t ++ htmlAfter) := by
  simp only [format_html_report, h, ok_bind]
  rfl

/-- C6 witness at the empty payload. -/
theorem html_report_wraps_text_witness :
    ∃ t, format_oura_report [] = .ok t ∧
      format_html_report [] = .ok (htmlBefore ++ t ++ htmlAfter) :=
  ⟨_, rfl, html_report_wraps_text [] _ rfl⟩

/-! ### Claim C2: the formatter is total on the data model -/

set_option maxRecDepth 40000 in
/-- C2 counterexample: the claim's null-field clause fails on the code.
`dict.get(key, default)` applies the default only when the key is missing,
so on this well-formed payload the stored-null sleep score renders as
Python's "None" (not "N/A") and the stored-null time-in-bed duration
renders "N/A" (not "0m"), as the full report shows. -/
theorem format_oura_report_null_counterexample :
    WFPayload nullFieldPayload = true ∧
    (extractParts nullFieldPayload).map (fun p => pyStr p.sleep_score) = .ok "None" ∧
    (extractParts nullFieldPayload).map (fun p => p.time_in_bed) = .ok "N/A" ∧
    format_oura_report nullFieldPayload = .ok
      "Oura Daily Report — 2024-12-27\n\nSCORES\n  Sleep: None | Activity: N/A | Readiness: N/A\n\nSLEEP (Dec 27)\n  Bedtime: N/A → N/A (N/A in bed)\n  Total sleep: 0m\n  Latency: 0 min\n  \n  Stages:\n    Deep: 0m (score: N/A)\n    REM: 0m (score: N/A)\n    Light: 0m\n  \n  Contributors:\n    Timing: N/A | Efficiency: N/A | Restfulness: N/A\n    Latency: N/A | Total: N/A\n  \n  Physiology:\n    Avg HR: N/A bpm | Lowest: N/A bpm\n    Avg HRV: N/A ms\n    Avg breath: N/A/min\n    Restless periods: N/A\n\nREADINESS\n  Score: N/A\n  Temp deviation: N/A\n  Contributors:\n    HRV balance: N/A | Sleep balance: N/A\n    Previous night: N/A | Recovery index: N/A\n\nACTIVITY (Dec 27)\n  Steps: N/A\n  Active calories: N/A\n  Low activity: 0m | Medium: 0m | High: 0m\n\nSTRESS (Dec 27)\n  Day summary: N/A\n  Recovery time: 0m | Stress time: 0m\n\nWORKOUTS\n  None logged\n" :=
  ⟨rfl, rfl, rfl, rfl⟩

/-- C2 (amended): on every well-formed payload the formatter returns a
report rather than raising; an absent field resolves to the "N/A"
placeholder and an absent duration to "0m"; a field stored as null is
returned as is by `dict.get` and so renders as Python's "None", while a
stored-null duration renders "N/A"; the fields of a category slot holding
an error marker are all absent, so with an error marker in the
`daily_activity` slot the report is still produced in full, with the
ACTIVITY fields rendered as the "N/A"/"0m" placeholders. -/
theorem format_oura_report_total (p : List (String × JVal)) (h : WFPayload p = true) :
    (∃ s, format_oura_report p = Except.ok s) ∧
    (∀ fs k, dictLookup fs k = none → pyStr (dget fs k (.str "N/A")) = "N/A") ∧
    (∀ fs k, dictLookup fs k = none → format_duration (dget fs k (.int 0)) = .ok "0m") ∧
    (∀ fs k, dictLookup fs k = some JVal.null → pyStr (dget fs k (.str "N/A")) = "None") ∧
    (∀ fs k, dictLookup fs k = some JVal.null →
      format_duration (dget fs k (.int 0)) = .ok "N/A") ∧
    (∀ msg, ∃ pre post,
      format_oura_report (dictSet p "daily_activity" (JVal.obj [("error", JVal.str msg)])) =
        Except.ok (pre ++
          ("  Steps: N/A\n  Active calories: N/A\n  Low activity: 0m | Medium: 0m | High: 0m\n"
            ++ post))) := by
  refine ⟨?_, ?_, ?_, ?_, ?_, ?_⟩
  · obtain ⟨parts, act, hok, -, -, -, -, -, -⟩ := extractParts_ok p h
    exact ⟨_, by simp only [format_oura_report, hok, ok_bind]; rfl⟩
  · intro fs k hk
    simp only [dget, hk, Option.getD_none]
    rfl
  · intro fs k hk
    simp only [dget, hk, Option.getD_none]
    rfl
  · intro fs k hk
    simp only [dget, hk, Option.getD_some]
    rfl
  · intro fs k hk
    simp only [dget, hk, Option.getD_some]
    rfl
  · intro msg
    have hWF : WFPayload (dictSet p "daily_activity" (JVal.obj [("error", JVal.str msg)])) = true :=
      WFPayload_setActivityError p msg h
    obtain ⟨parts, act, hok, hact, hsteps, hcal, hlow, hmed, hhigh⟩ :=
      extractParts_ok _ hWF
    have hlk : dictLookup (dictSet p "daily_activity" (JVal.obj [("error", JVal.str msg)]))
        "daily_activity" = some (JVal.obj [("error", JVal.str msg)]) := by
      rw [dictLookup_dictSet]; simp
    have hact0 : firstData (dget (dictSet p "daily_activity"
        (JVal.obj [("error", JVal.str msg)])) "daily_activity" (.obj []))
        = .ok (JVal.obj []) := by
      simp only [dget, hlk, Option.getD_some]
      rfl
    rw [hact0] at hact
    have hacteq : JVal.obj [] = act := Except.ok.inj hact
    subst hacteq
    have h1 : parts.steps = "N/A" := by rw [hsteps]; rfl
    have h2 : parts.active_cal = JVal.str "N/A" := by rw [hcal]; rfl
    have h3 : parts.low_activity = "0m" := by
      have hv : durFieldRender "low_activity_time" (JVal.obj []) = .ok "0m" := rfl
      rw [hv] at hlow
      exact (Except.ok.inj hlow).symm
    have h4 : parts.med_activity = "0m" := by
      have hv : durFieldRender "medium_activity_time" (JVal.obj []) = .ok "0m" := rfl
      rw [hv] at hmed
      exact (Except.ok.inj hmed).symm
    have h5 : parts.high_activity = "0m" := by
      have hv : durFieldRender "high_activity_time" (JVal.obj []) = .ok "0m" := rfl
      rw [hv] at hhigh
      exact (Except.ok.inj hhigh).symm
    have hmid : renderActivityFields parts =
        "  Steps: N/A\n  Active calories: N/A\n  Low activity: 0m | Medium: 0m | High: 0m\n" := by
      unfold renderActivityFields
      rw [h1, h2, h3, h4, h5]
      rfl
    refine ⟨renderHead parts, renderTail parts, ?_⟩
    simp only [format_oura_report, hok, ok_bind, renderReport, hmid]
    rfl

/-- C2 witness: the representative payload is well formed and formats. -/
theorem format_oura_report_total_witness :
    WFPayload demoPayload = true ∧ ∃ s, format_oura_report demoPayload = Except.ok s :=
  ⟨by rfl, (format_oura_report_total demoPayload (by rfl)).1⟩

theorem daysInMonth_pos (y m : Nat) : 1 ≤ daysInMonth y m := by
  unfold daysInMonth
  split
  · split <;> norm_num
  · split <;> norm_num

theorem monthsDays_step (y : Nat) (m : Nat) (h1 : 1 ≤ m) (h12 : m ≤ 12) :
    monthsDays y m = monthsDays y (m - 1) + daysInMonth y m := by
  interval_cases m <;> cases h : isLeapYear y <;>
    simp [monthsDays, daysInMonth, h]

theorem leapsBefore_succ (y : Nat) (hy : 1 ≤ y) :
    leapsBefore (y + 1) = leapsBefore y + (if isLeapYear y then 1 else 0) := by
  unfold leapsBefore
  by_cases hl : isLeapYear y = true
  · rw [if_pos hl]
    unfold isLeapYear at hl
    simp only [Bool.or_eq_true, Bool.and_eq_true, decide_eq_true_eq,
               bne_iff_ne, ne_eq] at hl
    omega
  · rw [if_neg hl]
    unfold isLeapYear at hl
    simp only [Bool.or_eq_true, Bool.and_eq_true, decide_eq_true_eq,
               bne_iff_ne, ne_eq, not_or, not_and] at hl
    omega

theorem dayNumber_succ (d : Date) (h : d.valid = true) :
    (Date.succ d).valid = true ∧ dayNumber (Date.succ d) = dayNumber d + 1 := by
  obtain ⟨y, m, day⟩ := d
  simp only [Date.valid, Bool.and_eq_true, decide_eq_true_eq] at h
  obtain ⟨⟨⟨⟨hy, hm1⟩, hm12⟩, hd1⟩, hdM⟩ := h
  unfold Date.succ
  simp only at *
  by_cases hlt : day < daysInMonth y m
  · rw [if_pos hlt]
    constructor
    · simp only [Date.valid, Bool.and_eq_true, decide_eq_true_eq]
      refine ⟨⟨⟨⟨hy, hm1⟩, hm12⟩, by omega⟩, by omega⟩
    · unfold dayNumber
      simp only
      omega
  · rw [if_neg hlt]
    have hdeq : day = daysInMonth y m := by omega
    by_cases hm : m < 12
    · rw [if_pos hm]
      have hpos := daysInMonth_pos y (m + 1)
      constructor
      · simp only [Date.valid, Bool.and_eq_true, decide_eq_true_eq]
        refine ⟨⟨⟨⟨hy, by omega⟩, by omega⟩, by omega⟩, hpos⟩
      · unfold dayNumber
        simp only
        have hstep := monthsDays_step y m hm1 (by omega)
        rw [show m + 1 - 1 = m from rfl]
        omega
    · rw [if_neg hm]
      have hm' : m = 12 := by omega
      subst hm'
      have hdi : daysInMonth y 12 = 31 := rfl
      constructor
      · simp only [Date.valid, Bool.and_eq_true, decide_eq_true_eq]
        exact ⟨⟨⟨⟨by omega, by norm_num⟩, by norm_num⟩, by norm_num⟩,
               by simp [daysInMonth]⟩
      · unfold dayNumber
        simp only
        have hLS := leapsBefore_succ y hy
        have h11 : monthsDays y 11 = 334 + (if isLeapYear y then 1 else 0) := rfl
        have h0 : monthsDays (y + 1) 0 = 0 := rfl
        rw [show (12 : Nat) - 1 = 11 from rfl, show (1 : Nat) - 1 = 0 from rfl]
        omega

theorem dayNumber_pred (d : Date) (h : d.valid = true)
    (hmin : 1 < d.year ∨ 1 < d.month ∨ 1 < d.day) :
    (Date.pred d).valid = true ∧ dayNumber (Date.pred d) + 1 = dayNumber d := by
  obtain ⟨y, m, day⟩ := d
  simp only [Date.valid, Bool.and_eq_true, decide_eq_true_eq] at h
  obtain ⟨⟨⟨⟨hy, hm1⟩, hm12⟩, hd1⟩, hdM⟩ := h
  unfold Date.pred
  simp only at *
  by_cases hgt : 1 < day
  · rw [if_pos hgt]
    constructor
    · simp only [Date.valid, Bool.and_eq_true, decide_eq_true_eq]
      refine ⟨⟨⟨⟨hy, hm1⟩, hm12⟩, by omega⟩, by omega⟩
    · unfold dayNumber
      simp only
      omega
  · rw [if_neg hgt]
    have hdeq : day = 1 := by omega
    by_cases hm : 1 < m
    · rw [if_pos hm]
      have hpos := daysInMonth_pos y (m - 1)
      constructor
      · simp only [Date.valid, Bool.and_eq_true, decide_eq_true_eq]
        refine ⟨⟨⟨⟨hy, by omega⟩, by omega⟩, hpos⟩, by omega⟩
      · unfold dayNumber
        simp only
        have hstep := monthsDays_step y (m - 1) (by omega) (by omega)
        have he : m - 1 - 1 = m - 2 := rfl
        omega
    · rw [if_neg hm]
      have hm' : m = 1 := by omega
      subst hm'
      have hy2 : 1 < y := by omega
      constructor
      · simp only [Date.valid, Bool.and_eq_true, decide_eq_true_eq]
        exact ⟨⟨⟨⟨by omega, by norm_num⟩, by norm_num⟩, by norm_num⟩,
               by simp [daysInMonth]⟩
      · unfold dayNumber
        simp only
        have hLS := leapsBefore_succ (y - 1) (by omega)
        rw [show y - 1 + 1 = y by omega] at hLS
        have h11 : monthsDays (y - 1) 11 = 334 + (if isLeapYear (y - 1) then 1 else 0) := rfl
        have h0 : monthsDays y 0 = 0 := rfl
        rw [show (12 : Nat) - 1 = 11 from rfl, show (1 : Nat) - 1 = 0 from rfl]
        omega

theorem fetchSlot_obj (f : Fetch) (c : Category) (s e : String) :
    ∃ fs, fetchSlot f c s e = .obj fs := by
  unfold fetchSlot
  cases f c s e with
  | ok d => exact ⟨d, rfl⟩
  | error m => exact ⟨_, rfl⟩

/-! ### Claim C10: every slot of the fetched payload is populated -/

/-- C10: the payload built by `get_todays_data` always carries the `date`,
`activity_date` and `fetched_at` keys, and every one of the seven category
slots holds a dict — the category's response or an error-marker dict — so
the initial `None` state never escapes to the formatter. -/
theorem payload_slots_populated (D : Date) (fAt : String) (fetch : Fetch) :
    dictLookup (get_todays_data D fAt fetch) "date" = some (.str D.fmt) ∧
    dictLookup (get_todays_data D fAt fetch) "activity_date" = some (.str (Date.pred D).fmt) ∧
    dictLookup (get_todays_data D fAt fetch) "fetched_at" = some (.str fAt) ∧
    ∀ c : Category, ∃ fs,
      dictLookup (get_todays_data D fAt fetch) c.slotKey = some (JVal.obj fs) := by
  refine ⟨?_, ?_, ?_, ?_⟩
  · simp [get_todays_data, dictLookup_dictSet, dictLookup]
  · simp [get_todays_data, dictLookup_dictSet, dictLookup]
  · simp [get_todays_data, dictLookup_dictSet, dictLookup]
  · intro c
    cases c with
    | dailySleep =>
        obtain ⟨fs, hfs⟩ := fetchSlot_obj fetch .dailySleep D.fmt (Date.succ D).fmt
        exact ⟨fs, by simp [get_todays_data, Category.slotKey, dictLookup_dictSet,
                            dictLookup, hfs]⟩
    | sleepPeriods =>
        obtain ⟨fs, hfs⟩ := fetchSlot_obj fetch .sleepPeriods D.fmt (Date.succ D).fmt
        exact ⟨fs, by simp [get_todays_data, Category.slotKey, dictLookup_dictSet,
                            dictLookup, hfs]⟩
    | dailyReadiness =>
        obtain ⟨fs, hfs⟩ := fetchSlot_obj fetch .dailyReadiness D.fmt (Date.succ D).fmt
        exact ⟨fs, by simp [get_todays_data, Category.slotKey, dictLookup_dictSet,
                            dictLookup, hfs]⟩
    | dailyActivity =>
        obtain ⟨fs, hfs⟩ := fetchSlot_obj fetch .dailyActivity (Date.pred D).fmt D.fmt
        exact ⟨fs, by simp [get_todays_data, Category.slotKey, dictLookup_dictSet,
                            dictLookup, hfs]⟩
    | dailyStress =>
        obtain ⟨fs, hfs⟩ := fetchSlot_obj fetch .dailyStress (Date.pred D).fmt D.fmt
        exact ⟨fs, by simp [get_todays_data, Category.slotKey, dictLookup_dictSet,
                            dictLookup, hfs]⟩
    | workouts =>
        obtain ⟨fs, hfs⟩ := fetchSlot_obj fetch .workouts (Date.pred D).fmt D.fmt
        exact ⟨fs, by simp [get_todays_data, Category.slotKey, dictLookup_dictSet,
                            dictLookup, hfs]⟩
    | sleepTime =>
        obtain ⟨fs, hfs⟩ := fetchSlot_obj fetch .sleepTime (Date.pred D).fmt D.fmt
        exact ⟨fs, by simp [get_todays_data, Category.slotKey, dictLookup_dictSet,
                            dictLookup, hfs]⟩

/-! ### Claim C4: date selection and category windows -/

/-- C4: for any valid local date D (past the calendar minimum), the payload
has `reportDate = D` and `activityDate = D - 1 day` — one day apart in the
proleptic day count, so also across month and year boundaries — and the
sleep/readiness categories are requested over `[D, D+1)` while the
activity/stress/workout/sleep-time categories are requested over
`[D-1, D)`. -/
theorem get_todays_data_dates (D : Date) (fAt : String) (fetch : Fetch)
    (hv : D.valid = true) (hmin : 1 < D.year ∨ 1 < D.month ∨ 1 < D.day) :
    dictLookup (get_todays_data D fAt fetch) "date" = some (.str D.fmt) ∧
    dictLookup (get_todays_data D fAt fetch) "activity_date" = some (.str (Date.pred D).fmt) ∧
    (Date.pred D).valid = true ∧ dayNumber (Date.pred D) + 1 = dayNumber D ∧
    (Date.succ D).valid = true ∧ dayNumber (Date.succ D) = dayNumber D + 1 ∧
    dictLookup (get_todays_data D fAt fetch) "daily_sleep" =
      some (fetchSlot fetch .dailySleep D.fmt (Date.succ D).fmt) ∧
    dictLookup (get_todays_data D fAt fetch) "sleep_periods" =
      some (fetchSlot fetch .sleepPeriods D.fmt (Date.succ D).fmt) ∧
    dictLookup (get_todays_data D fAt fetch) "daily_readiness" =
      some (fetchSlot fetch .dailyReadiness D.fmt (Date.succ D).fmt) ∧
    dictLookup (get_todays_data D fAt fetch) "daily_activity" =
      some (fetchSlot fetch .dailyActivity (Date.pred D).fmt D.fmt) ∧
    dictLookup (get_todays_data D fAt fetch) "daily_stress" =
      some (fetchSlot fetch .dailyStress (Date.pred D).fmt D.fmt) ∧
    dictLookup (get_todays_data D fAt fetch) "workouts" =
      some (fetchSlot fetch .workouts (Date.pred D).fmt D.fmt) ∧
    dictLookup (get_todays_data D fAt fetch) "sleep_time" =
      some (fetchSlot fetch .sleepTime (Date.pred D).fmt D.fmt) := by
  obtain ⟨hpv, hpn⟩ := dayNumber_pred D hv hmin
  obtain ⟨hsv, hsn⟩ := dayNumber_succ D hv
  refine ⟨?_, ?_, hpv, hpn, hsv, hsn, ?_, ?_, ?_, ?_, ?_, ?_, ?_⟩ <;>
    simp [get_todays_data, dictLookup_dictSet, dictLookup]

/-- C4 witness at a year boundary: Jan 1, 2025 reports activity for
Dec 31, 2024. -/
theorem get_todays_data_dates_witness :
    dictLookup (get_todays_data ⟨2025, 1, 1⟩ "t" (fun _ _ _ => Except.error "e")) "date" =
      some (.str "2025-01-01") ∧
    dictLookup (get_todays_data ⟨2025, 1, 1⟩ "t" (fun _ _ _ => Except.error "e"))
      "activity_date" = some (.str "2024-12-31") ∧
    dayNumber (Date.pred ⟨2025, 1, 1⟩) + 1 = dayNumber ⟨2025, 1, 1⟩ := by
  have h := get_todays_data_dates ⟨2025, 1, 1⟩ "t" (fun _ _ _ => Except.error "e")
      (by decide) (by norm_num)
  exact ⟨h.1.trans (by rfl), h.2.1.trans (by rfl), h.2.2.2.1⟩

/-! ### Claim C5: per-category failures are isolated -/

/-- C5: a category whose fetch fails gets exactly the `{"error": reason}`
marker in its own slot, and the other six slots are computed from their own
fetches alone — fetch functions that agree outside the failing category
produce identical remaining slots, so every other category is still
fetched. -/
theorem per_category_failure (D : Date) (fAt : String) (f g : Fetch)
    (c : Category) (e : String) :
    ((∀ s₂ e₂, f c s₂ e₂ = .error e) →
       dictLookup (get_todays_data D fAt f) c.slotKey =
         some (.obj [("error", .str e)])) ∧
    ((∀ c₂, c₂ ≠ c → ∀ s₂ e₂, f c₂ s₂ e₂ = g c₂ s₂ e₂) →
       ∀ c₂, c₂ ≠ c → dictLookup (get_todays_data D fAt f) c₂.slotKey =
         dictLookup (get_todays_data D fAt g) c₂.slotKey) := by
  constructor
  · intro hf
    cases c <;>
      simp [get_todays_data, Category.slotKey, dictLookup_dictSet, dictLookup,
            fetchSlot, hf]
  · intro hfg c₂ hne
    have heq := hfg c₂ hne
    cases c₂ <;>
      simp [get_todays_data, Category.slotKey, dictLookup_dictSet, dictLookup,
            fetchSlot, heq]

/-- C5 witness: a failed activity fetch leaves its error marker in the
activity slot only; the sleep slot is what the healthy fetch yields. -/
theorem per_category_failure_witness :
    dictLookup (get_todays_data ⟨2024, 12, 27⟩ "t" wFetchDown) "daily_activity" =
      some (.obj [("error", .str "503 Server Error")]) ∧
    dictLookup (get_todays_data ⟨2024, 12, 27⟩ "t" wFetchDown) "daily_sleep" =
      dictLookup (get_todays_data ⟨2024, 12, 27⟩ "t" wFetchUp) "daily_sleep" := by
  have h := per_category_failure ⟨2024, 12, 27⟩ "t" wFetchDown wFetchUp
      Category.dailyActivity "503 Server Error"
  refine ⟨h.1 (fun s₂ e₂ => rfl), h.2 ?_ Category.dailySleep (by intro hx; cases hx)⟩
  intro c₂ hne s₂ e₂
  cases c₂ <;> first
    | rfl
    | exact absurd rfl hne

/-! ### Claim C7: run success is exactly the mail result -/

/-- C7: provided the formatter produces a report, the one-shot run's result
is exactly the boolean returned by the mail-delivery operation on the
assembled message — whatever the fetch did; in particular, with a delivery
operation of constant outcome `b` the run reports `b` no matter which
category fetches failed. -/
theorem run_success_iff_email_sent (send_email : EmailArgs → Bool) (recipient : String)
    (D : Date) (fAt : String) (fetch : Fetch) (t : String)
    (h : format_oura_report (get_todays_data D fAt fetch) = .ok t) :
    send_daily_report send_email recipient D fAt fetch =
      .ok (send_email {
        recipient := recipient,
        subject := "🌙 Oura Daily Report — " ++
          pyStr (dget (get_todays_data D fAt fetch) "date" (.str "Unknown")),
        body_text := t,
        body_html := some (htmlBefore ++ t ++ htmlAfter) }) ∧
    (∀ b, (∀ a, send_email a = b) → send_daily_report send_email recipient D fAt fetch = .ok b) := by
  have h1 : send_daily_report send_email recipient D fAt fetch =
      .ok (send_email {
        recipient := recipient,
        subject := "🌙 Oura Daily Report — " ++
          pyStr (dget (get_todays_data D fAt fetch) "date" (.str "Unknown")),
        body_text := t,
        body_html := some (htmlBefore ++ t ++ htmlAfter) }) := by
    simp only [send_daily_report, send_oura_data, format_html_report, h, ok_bind]
    rfl
  refine ⟨h1, ?_⟩
  intro b hb
  rw [h1, hb]

/-- C7 witness: with every category fetch failing and delivery reporting
`true`, the run reports success. -/
theorem run_success_iff_email_sent_witness :
    ∃ t, format_oura_report (get_todays_data ⟨2024, 12, 27⟩ "ts"
        (fun _ _ _ => Except.error "network down")) = Except.ok t ∧
      send_daily_report (fun _ => true) "r@example.com" ⟨2024, 12, 27⟩ "ts"
        (fun _ _ _ => Except.error "network down") = .ok true :=
  ⟨_, rfl,
    (run_success_iff_email_sent (fun _ => true) "r@example.com" ⟨2024, 12, 27⟩ "ts"
        (fun _ _ _ => Except.error "network down") _ rfl).2 true (fun _ => rfl)⟩

/-! ### Claim C8: startup configuration validation -/

/-- C8 counterexample: with the credential missing but `SMTP_PORT` set to a
non-numeric value, `load_config` dies of `int()`'s ValueError while
building the config dict — before the validation runs — so the promised
diagnostic enumerating the missing variables is never produced. -/
theorem load_config_counterexample :
    strFalsy (badPortEnv "OURA_ACCESS_TOKEN") = true ∧
    load_config badPortEnv = .error (.valueError "abc") ∧
    isExitMissing (load_config badPortEnv) = false :=
  ⟨rfl, rfl, rfl⟩

/-- C8 (amended): provided `SMTP_PORT` (or its default) parses as an
integer, startup exits with a single diagnostic listing exactly the subset
of {OURA_ACCESS_TOKEN, SENDER_EMAIL, SENDER_PASSWORD} that is unset or
empty whenever that subset is non-empty, and succeeds otherwise — no
network activity is modelled anywhere in `load_config`. -/
theorem load_config_spec (env : String → Option String) (port : Int)
    (hport : pyInt (getenvD env "SMTP_PORT" "587") = some port) :
    ((strFalsy (env "OURA_ACCESS_TOKEN") = true ∨ strFalsy (env "SENDER_EMAIL") = true ∨
        strFalsy (env "SENDER_PASSWORD") = true) →
      ∃ missing, load_config env = .error (.exitMissing missing
          ("Error: Missing required environment variables: " ++
            String.intercalate ", " missing)) ∧
        ("OURA_ACCESS_TOKEN" ∈ missing ↔ strFalsy (env "OURA_ACCESS_TOKEN") = true) ∧
        ("SENDER_EMAIL" ∈ missing ↔ strFalsy (env "SENDER_EMAIL") = true) ∧
        ("SENDER_PASSWORD" ∈ missing ↔ strFalsy (env "SENDER_PASSWORD") = true)) ∧
    ((strFalsy (env "OURA_ACCESS_TOKEN") = false ∧ strFalsy (env "SENDER_EMAIL") = false ∧
        strFalsy (env "SENDER_PASSWORD") = false) →
      load_config env = .ok {
        oura_token := env "OURA_ACCESS_TOKEN",
        smtp_server := getenvD env "SMTP_SERVER" "smtp.gmail.com",
        smtp_port := port,
        sender_email := env "SENDER_EMAIL",
        sender_password := env "SENDER_PASSWORD",
        recipient_email := getenvD env "RECIPIENT_EMAIL" "cooperpenniman@gmail.com",
        schedule_time := getenvD env "SCHEDULE_TIME" "10:00" }) := by
  constructor
  · intro hmiss
    by_cases t1 : strFalsy (env "OURA_ACCESS_TOKEN") = true <;>
      by_cases t2 : strFalsy (env "SENDER_EMAIL") = true <;>
        by_cases t3 : strFalsy (env "SENDER_PASSWORD") = true
    · exact ⟨["OURA_ACCESS_TOKEN", "SENDER_EMAIL", "SENDER_PASSWORD"],
        by simp [load_config, hport, t1, t2, t3],
        by simp [t1], by simp [t2], by simp [t3]⟩
    · exact ⟨["OURA_ACCESS_TOKEN", "SENDER_EMAIL"],
        by simp [load_config, hport, t1, t2, t3],
        by simp [t1], by simp [t2], by simp [t3]⟩
    · exact ⟨["OURA_ACCESS_TOKEN", "SENDER_PASSWORD"],
        by simp [load_config, hport, t1, t2, t3],
        by simp [t1], by simp [t2], by simp [t3]⟩
    · exact ⟨["OURA_ACCESS_TOKEN"],
        by simp [load_config, hport, t1, t2, t3],
        by simp [t1], by simp [t2], by simp [t3]⟩
    · exact ⟨["SENDER_EMAIL", "SENDER_PASSWORD"],
        by simp [load_config, hport, t1, t2, t3],
        by simp [t1], by simp [t2], by simp [t3]⟩
    · exact ⟨["SENDER_EMAIL"],
        by simp [load_config, hport, t1, t2, t3],
        by simp [t1], by simp [t2], by simp [t3]⟩
    · exact ⟨["SENDER_PASSWORD"],
        by simp [load_config, hport, t1, t2, t3],
        by simp [t1], by simp [t2], by simp [t3]⟩
    · exact absurd hmiss (by simp [t1, t2, t3])
  · intro ⟨t1, t2, t3⟩
    simp [load_config, hport, t1, t2, t3]

/-- C8 witness: with all three required variables present (and the default
port), startup validation succeeds. -/
theorem load_config_spec_witness :
    ∃ cfg, load_config fullEnv = Except.ok cfg :=
  ⟨_, (load_config_spec fullEnv 587 rfl).2 ⟨rfl, rfl, rfl⟩⟩

/-! ### Claim C9: the scheduler loop -/

theorem nextFire_le_iff (T t : Nat) (hT : T < 1440) :
    nextFireAtOrAfter T t ≤ t ↔ t % 1440 = T := by
  unfold nextFireAtOrAfter
  have h1 : t % 1440 ≤ t := Nat.mod_le t 1440
  split <;> omega

theorem nextFire_advance (T t : Nat) (hT : T < 1440) (h : t % 1440 ≠ T) :
    nextFireAtOrAfter T t = nextFireAtOrAfter T (t + 1) := by
  unfold nextFireAtOrAfter
  split <;> split <;> omega

theorem schedRun_eq (T : Nat) (hT : T < 1440) :
    ∀ n t, schedRun T (nextFireAtOrAfter T t) t n =
      (List.range' t n).filter (fun x => x % 1440 = T) := by
  intro n
  induction n with
  | zero => intro t; rfl
  | succ n ih =>
      intro t
      by_cases hfire : t % 1440 = T
      · have hle : nextFireAtOrAfter T t ≤ t := (nextFire_le_iff T t hT).mpr hfire
        simp only [schedRun, schedStep, if_pos hle]
        rw [show List.range' t (n + 1) = t :: List.range' (t + 1) n from rfl,
            List.filter_cons, ih (t + 1)]
        simp [hfire]
      · have hnle : ¬ nextFireAtOrAfter T t ≤ t := by
          rw [nextFire_le_iff T t hT]; exact hfire
        simp only [schedRun, schedStep, if_neg hnle]
        rw [nextFire_advance T t hT hfire, ih (t + 1),
            show List.range' t (n + 1) = t :: List.range' (t + 1) n from rfl,
            List.filter_cons]
        simp [hfire]

/-- C9: under the minute-polling loop with a daily trigger at minute-of-day
T, the job runs exactly at the polled minutes whose wall-clock time is T:
never before the trigger, exactly once per day (one minute per day
satisfies `t % 1440 = T`), never a second time before the next day's
occurrence, and after every run the state is again a waiting next-fire
time. -/
theorem scheduler_fires_exactly_daily (T : Nat) (hT : T < 1440) (t₀ n : Nat) :
    schedulerFires T t₀ n = (List.range' t₀ n).filter (fun t => t % 1440 = T) ∧
    ∀ t, t ∈ schedulerFires T t₀ n ↔ (t₀ ≤ t ∧ t < t₀ + n ∧ t % 1440 = T) := by
  have hmain := schedRun_eq T hT n t₀
  refine ⟨hmain, ?_⟩
  intro t
  unfold schedulerFires
  rw [hmain]
  simp only [List.mem_filter, List.mem_range'_1, decide_eq_true_eq]
  tauto

set_option maxRecDepth 20000 in
/-- C9 witness: trigger 10:00 (minute 600), polls started at 09:58: within
five minutes the job fires exactly once, at 10:00; within 25 hours it fires
exactly twice, at 10:00 on each of the two days. -/
theorem scheduler_fires_exactly_daily_witness :
    (600 : Nat) < 1440 ∧ schedulerFires 600 598 5 = [600] ∧
      schedulerFires 600 598 1500 = [600, 2040] := by
  refine ⟨by norm_num, ?_, ?_⟩
  · rw [(scheduler_fires_exactly_daily 600 (by norm_num) 598 5).1]
    rfl
  · rw [(scheduler_fires_exactly_daily 600 (by norm_num) 598 1500).1]
    rfl

end Oura
